import Mathlib

/-!
# Porkbun Terraform provider: reconciliation layer

A shallow embedding of `internal/provider/client.go`,
`dns_record_resource.go`, `domain_nameservers_resource.go`,
`dns_record_data_source.go` and `provider.go`, followed by the properties of
the record reconciler, the import resolver, the name normaliser, the
nameserver reconciler, the gateway, the data source and the provider
configuration.

Conventions of the embedding

* A Go `string` is a Lean `String`, read as its sequence of characters
  (`String.data`); `len`, slicing and comparison act on that sequence.
* A Go `error` is its `Error()` text; a function returning `(T, error)` becomes
  `Except String T`, one returning `error` becomes `Except String Unit`.
* Everything outside the repository that a call depends on (the JSON codec,
  request construction, the network) is collected in `World` and passed
  explicitly.
* A response object that the Go code mutates through a pointer is passed in
  and returned.
-/

namespace Porkbun

/-! ## Go standard library: package `strings` -/

namespace strings

/-- Go `strings.HasSuffix`:
`len(s) >= len(suffix) && s[len(s)-len(suffix):] == suffix`. -/
def HasSuffix (s suffix : String) : Bool :=
  decide (s.data.length ≥ suffix.data.length) &&
    (s.data.drop (s.data.length - suffix.data.length) == suffix.data)

/-- Go `strings.TrimSuffix`:
`if HasSuffix(s, suffix) { return s[:len(s)-len(suffix)] }; return s`. -/
def TrimSuffix (s suffix : String) : String :=
  if HasSuffix s suffix then
    String.mk (s.data.take (s.data.length - suffix.data.length))
  else s

/-- Occurrence test behind `strings.Contains`: `substr` starts at some
position of `s` (the positions are tried left to right, the end included). -/
def containsChars : List Char → List Char → Bool
  | [], substr => substr.isPrefixOf []
  | c :: cs, substr => substr.isPrefixOf (c :: cs) || containsChars cs substr

/-- Go `strings.Contains`: `Index(s, substr) >= 0`. -/
def Contains (s substr : String) : Bool :=
  containsChars s.data substr.data

/-- Splitting a character sequence around every occurrence of the separator
character `sep`; the result is never empty. -/
def splitChars (sep : Char) : List Char → List (List Char)
  | [] => [[]]
  | c :: cs =>
    if c = sep then [] :: splitChars sep cs
    else
      match splitChars sep cs with
      | [] => [[c]]
      | p :: ps => (c :: p) :: ps

/-- Go `strings.Split(s, sep)` for a separator of one character, which is how
the provider calls it (`strings.Split(req.ID, "/")`): all substrings of `s`
between occurrences of `sep`, in order; `len(result) = Count(s, sep) + 1`. -/
def Split (s : String) (sep : Char) : List String :=
  (splitChars sep s.data).map String.mk

end strings

/-! ## Terraform plugin framework: values, diagnostics, state -/

/-- The framework's `types.String`: a string attribute is null, unknown or
holds a value. -/
inductive TString where
  | null
  | unknown
  | value (s : String)
  deriving DecidableEq, Repr

/-- The framework's `types.StringValue`. -/
def types.StringValue (s : String) : TString := TString.value s

/-- The framework's `types.String.ValueString`: the value, or `""` when the
attribute is null or unknown. -/
def TString.ValueString : TString → String
  | TString.value s => s
  | _ => ""

/-- Severity of a diagnostic. -/
inductive Severity where
  | error
  | warning
  deriving DecidableEq, Repr

/-- One diagnostic of the framework: severity, summary and detail. -/
structure Diagnostic where
  Severity : Severity
  Summary : String
  Detail : String
  deriving DecidableEq, Repr

/-- The framework's `diag.Diagnostics`, in the order they were added. -/
abbrev Diagnostics := List Diagnostic

/-- The framework's `Diagnostics.AddError(summary, detail)`. -/
def Diagnostics.AddError (ds : Diagnostics) (summary detail : String) : Diagnostics :=
  ds ++ [{ Severity := Severity.error, Summary := summary, Detail := detail }]

/-- The framework's `Diagnostics.Append`. -/
def Diagnostics.Append (ds more : Diagnostics) : Diagnostics :=
  ds ++ more

/-- The framework's `Diagnostics.HasError`. -/
def Diagnostics.HasError (ds : Diagnostics) : Bool :=
  ds.any (fun d => d.Severity == Severity.error)

/-! ## `client.go` -/

/-- Go `authRequest`: the base request with authentication. -/
structure authRequest where
  SecretAPIKey : String
  APIKey : String
  deriving DecidableEq, Repr

/-- Go `APIResponse`: the base response from the API. -/
structure APIResponse where
  Status : String
  Message : String
  deriving DecidableEq, Repr

/-- Go `DNSRecord` (`Type_` is its field `Type`). -/
structure DNSRecord where
  ID : String
  Name : String
  Type_ : String
  Content : String
  TTL : String
  Prio : String
  Notes : String
  deriving DecidableEq, Repr

/-- Go `RetrieveDNSRecordsResponse`: `APIResponse` embedded, plus the records. -/
structure RetrieveDNSRecordsResponse extends APIResponse where
  Records : List DNSRecord
  deriving DecidableEq, Repr

/-- Go `CreateDNSRecordRequest`: `authRequest` embedded, plus the record fields
(`Type_` is its field `Type`). -/
structure CreateDNSRecordRequest extends authRequest where
  Name : String
  Type_ : String
  Content : String
  TTL : String
  Prio : String
  Notes : String
  deriving DecidableEq, Repr

/-- Go `CreateDNSRecordResponse`: `APIResponse` embedded, plus the new id. -/
structure CreateDNSRecordResponse extends APIResponse where
  ID : Int
  deriving DecidableEq, Repr

/-- Go `EditDNSRecordRequest`: `authRequest` embedded, plus the record fields
(`Type_` is its field `Type`). -/
structure EditDNSRecordRequest extends authRequest where
  Name : String
  Type_ : String
  Content : String
  TTL : String
  Prio : String
  Notes : String
  deriving DecidableEq, Repr

/-- A value handed to `doRequest` as `body`. -/
inductive Payload where
  | auth (req : authRequest)
  | create (record : CreateDNSRecordRequest)
  | edit (record : EditDNSRecordRequest)
  deriving DecidableEq, Repr

/-- An `*http.Request` as `doRequest` builds it. -/
structure HTTPRequest where
  Method : String
  URL : String
  Body : Option String
  Header : List (String × String)
  deriving DecidableEq, Repr

/-- An `*http.Response` as far as `doRequest` reads it: the status code and
the outcome of `io.ReadAll(resp.Body)`. -/
structure HTTPResponse where
  StatusCode : Nat
  Body : Except String String

/-- Everything outside the repository that the client depends on. -/
structure World where
  /-- Go `json.Marshal` on a request payload. -/
  Marshal : Payload → Except String String
  /-- The error of `http.NewRequest(method, url, body)`, if it has one. -/
  NewRequestErr : String → String → Option String → Option String
  /-- Go `httpClient.Do`: the network. -/
  Do : HTTPRequest → Except String HTTPResponse
  /-- Go `json.Unmarshal` into a `RetrieveDNSRecordsResponse`. -/
  UnmarshalRetrieve : String → Except String RetrieveDNSRecordsResponse
  /-- Go `json.Unmarshal` into an `APIResponse`. -/
  UnmarshalAPI : String → Except String APIResponse
  /-- Go `json.Unmarshal` into a `CreateDNSRecordResponse`. -/
  UnmarshalCreate : String → Except String CreateDNSRecordResponse

/-- Go `defaultBaseURL`. -/
def defaultBaseURL : String := "https://api.porkbun.com/api/json/v3"

/-- Go `Client` (the HTTP client itself lives in `World`). -/
structure Client where
  baseURL : String
  apiKey : String
  secretAPIKey : String
  deriving DecidableEq, Repr

/-- Go `NewClient`. -/
def NewClient (apiKey secretAPIKey : String) : Client :=
  { baseURL := defaultBaseURL, apiKey := apiKey, secretAPIKey := secretAPIKey }

/-- Go `http.StatusOK`. -/
def http.StatusOK : Nat := 200

/-- Go `Client.doRequest`: performs an HTTP request to the Porkbun API and
returns the response body, or the error of the first step that failed. -/
def Client.doRequest (w : World) (c : Client) (method endpoint : String)
    (body : Option Payload) : Except String String :=
  let url := c.baseURL ++ endpoint
  let marshalled : Except String (Option String) :=
    match body with
    | none => Except.ok none
    | some b =>
      match w.Marshal b with
      | Except.error err => Except.error ("failed to marshal request body: " ++ err)
      | Except.ok jsonBody => Except.ok (some jsonBody)
  match marshalled with
  | Except.error err => Except.error err
  | Except.ok reqBody =>
    match w.NewRequestErr method url reqBody with
    | some err => Except.error ("failed to create request: " ++ err)
    | none =>
      let req : HTTPRequest :=
        { Method := method, URL := url, Body := reqBody,
          Header := [("Content-Type", "application/json")] }
      match w.Do req with
      | Except.error err => Except.error ("failed to execute request: " ++ err)
      | Except.ok resp =>
        match resp.Body with
        | Except.error err => Except.error ("failed to read response body: " ++ err)
        | Except.ok respBody =>
          if resp.StatusCode ≠ http.StatusOK then
            Except.error
              ("API returned status " ++ toString resp.StatusCode ++ ": " ++ respBody)
          else Except.ok respBody

/-- Go `Client.Ping`: tests the API connection. -/
def Client.Ping (w : World) (c : Client) : Except String Unit :=
  let req : authRequest := { SecretAPIKey := c.secretAPIKey, APIKey := c.apiKey }
  match c.doRequest w "POST" "/ping" (some (Payload.auth req)) with
  | Except.error err => Except.error err
  | Except.ok respBody =>
    match w.UnmarshalAPI respBody with
    | Except.error err => Except.error ("failed to parse response: " ++ err)
    | Except.ok resp =>
      if resp.Status ≠ "SUCCESS" then
        Except.error ("API ping failed: " ++ resp.Message)
      else Except.ok ()

/-- Go `Client.CreateDNSRecord`: creates a new DNS record and returns its id,
formatted with `%d`. -/
def Client.CreateDNSRecord (w : World) (c : Client) (domain : String)
    (record : CreateDNSRecordRequest) : Except String String :=
  let record := { record with SecretAPIKey := c.secretAPIKey }
  let record := { record with APIKey := c.apiKey }
  match c.doRequest w "POST" ("/dns/create/" ++ domain) (some (Payload.create record)) with
  | Except.error err => Except.error err
  | Except.ok respBody =>
    match w.UnmarshalCreate respBody with
    | Except.error err => Except.error ("failed to parse response: " ++ err)
    | Except.ok resp =>
      if resp.Status ≠ "SUCCESS" then
        Except.error ("failed to create DNS record: " ++ resp.Message)
      else Except.ok (toString resp.ID)

/-- Go `Client.GetDNSRecord`: retrieves a specific DNS record by ID. -/
def Client.GetDNSRecord (w : World) (c : Client) (domain recordID : String) :
    Except String DNSRecord :=
  let req : authRequest := { SecretAPIKey := c.secretAPIKey, APIKey := c.apiKey }
  match c.doRequest w "POST" ("/dns/retrieve/" ++ domain ++ "/" ++ recordID)
      (some (Payload.auth req)) with
  | Except.error err => Except.error err
  | Except.ok respBody =>
    match w.UnmarshalRetrieve respBody with
    | Except.error err => Except.error ("failed to parse response: " ++ err)
    | Except.ok resp =>
      if resp.Status ≠ "SUCCESS" then
        Except.error ("failed to retrieve DNS record: " ++ resp.Message)
      else
        if h : resp.Records.length = 0 then
          Except.error "DNS record not found"
        else Except.ok (resp.Records.get ⟨0, by omega⟩)

/-- Go `Client.EditDNSRecord`: updates an existing DNS record. -/
def Client.EditDNSRecord (w : World) (c : Client) (domain recordID : String)
    (record : EditDNSRecordRequest) : Except String Unit :=
  let record := { record with SecretAPIKey := c.secretAPIKey }
  let record := { record with APIKey := c.apiKey }
  match c.doRequest w "POST" ("/dns/edit/" ++ domain ++ "/" ++ recordID)
      (some (Payload.edit record)) with
  | Except.error err => Except.error err
  | Except.ok respBody =>
    match w.UnmarshalAPI respBody with
    | Except.error err => Except.error ("failed to parse response: " ++ err)
    | Except.ok resp =>
      if resp.Status ≠ "SUCCESS" then
        Except.error ("failed to edit DNS record: " ++ resp.Message)
      else Except.ok ()

/-- Go `Client.DeleteDNSRecord`: deletes a DNS record. -/
def Client.DeleteDNSRecord (w : World) (c : Client) (domain recordID : String) :
    Except String Unit :=
  let req : authRequest := { SecretAPIKey := c.secretAPIKey, APIKey := c.apiKey }
  match c.doRequest w "POST" ("/dns/delete/" ++ domain ++ "/" ++ recordID)
      (some (Payload.auth req)) with
  | Except.error err => Except.error err
  | Except.ok respBody =>
    match w.UnmarshalAPI respBody with
    | Except.error err => Except.error ("failed to parse response: " ++ err)
    | Except.ok resp =>
      if resp.Status ≠ "SUCCESS" then
        Except.error ("failed to delete DNS record: " ++ resp.Message)
      else Except.ok ()

/-- The `doRequest` call that `GetDNSRecord` makes for the record
`(domain, recordID)`, under a name of its own so that statements can speak of
its outcome. -/
def Client.retrieveBody (w : World) (c : Client) (domain recordID : String) :
    Except String String :=
  c.doRequest w "POST" ("/dns/retrieve/" ++ domain ++ "/" ++ recordID)
    (some (Payload.auth { SecretAPIKey := c.secretAPIKey, APIKey := c.apiKey }))

/-- The `doRequest` call that `Ping` makes. -/
def Client.pingBody (w : World) (c : Client) : Except String String :=
  c.doRequest w "POST" "/ping"
    (some (Payload.auth { SecretAPIKey := c.secretAPIKey, APIKey := c.apiKey }))

/-- The `doRequest` call that `CreateDNSRecord` makes for `(domain, record)`. -/
def Client.createBody (w : World) (c : Client) (domain : String)
    (record : CreateDNSRecordRequest) : Except String String :=
  c.doRequest w "POST" ("/dns/create/" ++ domain)
    (some (Payload.create
      { record with SecretAPIKey := c.secretAPIKey, APIKey := c.apiKey }))

/-- The `doRequest` call that `EditDNSRecord` makes for
`(domain, recordID, record)`. -/
def Client.editBody (w : World) (c : Client) (domain recordID : String)
    (record : EditDNSRecordRequest) : Except String String :=
  c.doRequest w "POST" ("/dns/edit/" ++ domain ++ "/" ++ recordID)
    (some (Payload.edit
      { record with SecretAPIKey := c.secretAPIKey, APIKey := c.apiKey }))

/-- The `doRequest` call that `DeleteDNSRecord` makes for `(domain, recordID)`. -/
def Client.deleteBody (w : World) (c : Client) (domain recordID : String) :
    Except String String :=
  c.doRequest w "POST" ("/dns/delete/" ++ domain ++ "/" ++ recordID)
    (some (Payload.auth { SecretAPIKey := c.secretAPIKey, APIKey := c.apiKey }))

/-! ## `dns_record_resource.go` -/

/-- Go `DNSRecordResource`: the resource implementation, holding its client. -/
structure DNSRecordResource where
  client : Client
  deriving DecidableEq, Repr

/-- Go `DNSRecordResourceModel`: the resource data model (`Type_` is its field
`Type`). -/
structure DNSRecordResourceModel where
  ID : TString
  Domain : TString
  Name : TString
  Type_ : TString
  Content : TString
  TTL : TString
  Prio : TString
  Notes : TString
  deriving DecidableEq, Repr

/-- The framework's `tfsdk.State` of a DNS record: `none` is the null state
(no resource tracked), `some m` tracks the record `m`. -/
abbrev State := Option DNSRecordResourceModel

/-- The model whose attributes are all null. -/
def DNSRecordResourceModel.null : DNSRecordResourceModel :=
  { ID := TString.null, Domain := TString.null, Name := TString.null,
    Type_ := TString.null, Content := TString.null, TTL := TString.null,
    Prio := TString.null, Notes := TString.null }

/-- The framework's `State.RemoveResource`: the state becomes null. -/
def State.RemoveResource (_ : State) : State := none

/-- The framework's `State.Set` with a whole model: the state becomes that
model; a model of the schema's shape raises no diagnostic. -/
def State.Set (_ : State) (data : DNSRecordResourceModel) : State × Diagnostics :=
  (some data, [])

/-- The framework's `State.SetAttribute(path.Root(name), value)` for a string
value: the named attribute is set and the others keep their value (null in a
null state); a name outside the schema is reported and changes nothing. -/
def State.SetAttribute (st : State) (name value : String) : State × Diagnostics :=
  let m := st.getD DNSRecordResourceModel.null
  if name = "domain" then (some { m with Domain := types.StringValue value }, [])
  else if name = "id" then (some { m with ID := types.StringValue value }, [])
  else (st, Diagnostics.AddError [] "Invalid Path" name)

/-- The framework's `resource.ReadRequest`: the prior state, decoded into the
model by `req.State.Get` (which cannot fail on a state of the schema's shape). -/
structure ReadRequest where
  State : DNSRecordResourceModel
  deriving DecidableEq, Repr

/-- The framework's `resource.ReadResponse`; the framework hands it to `Read`
holding the prior state and no diagnostics. -/
structure ReadResponse where
  State : State
  Diagnostics : Diagnostics
  deriving DecidableEq, Repr

/-- The name normalisation of `DNSRecordResource.Read` (the statements under
"Extract the subdomain from the full name"): the spec's `toRelative`. -/
def DNSRecordResource.toRelative (domain name : String) : String :=
  if name = domain then ""
  else if strings.HasSuffix name ("." ++ domain) then
    strings.TrimSuffix name ("." ++ domain)
  else name

/-- Go `DNSRecordResource.Read`. Reading the prior state adds no diagnostic;
the check of `resp.Diagnostics.HasError()` that follows it then looks at the
diagnostics the response was handed in with. -/
def DNSRecordResource.Read (w : World) (r : DNSRecordResource) (req : ReadRequest)
    (resp : ReadResponse) : ReadResponse :=
  let data := req.State
  if resp.Diagnostics.HasError then resp
  else
    match r.client.GetDNSRecord w data.Domain.ValueString data.ID.ValueString with
    | Except.error err =>
      -- Check if the record was deleted outside of Terraform
      if strings.Contains err "not found" then
        { resp with State := resp.State.RemoveResource }
      else
        { resp with
          Diagnostics :=
            resp.Diagnostics.AddError "Client Error" ("Unable to read DNS record: " ++ err) }
    | Except.ok record =>
      let name := DNSRecordResource.toRelative data.Domain.ValueString record.Name
      let data :=
        { data with
          Name := types.StringValue name
          Type_ := types.StringValue record.Type_
          Content := types.StringValue record.Content
          TTL := types.StringValue record.TTL
          Prio := types.StringValue record.Prio
          Notes := types.StringValue record.Notes }
      let (st, ds) := resp.State.Set data
      { State := st, Diagnostics := resp.Diagnostics.Append ds }

/-- The framework's `resource.ImportStateRequest`. -/
structure ImportStateRequest where
  ID : String
  deriving DecidableEq, Repr

/-- The framework's `resource.ImportStateResponse`; the framework hands it to
`ImportState` holding the null state and no diagnostics. -/
structure ImportStateResponse where
  State : State
  Diagnostics : Diagnostics
  deriving DecidableEq, Repr

/-- Go `DNSRecordResource.ImportState`; import format: `domain/record_id`. -/
def DNSRecordResource.ImportState (req : ImportStateRequest)
    (resp : ImportStateResponse) : ImportStateResponse :=
  let parts := strings.Split req.ID '/'
  if h : parts.length ≠ 2 then
    { resp with
      Diagnostics :=
        resp.Diagnostics.AddError "Invalid Import ID"
          ("Expected import ID in format 'domain/record_id', got: " ++ req.ID) }
  else
    let (st₁, ds₁) := resp.State.SetAttribute "domain" (parts.get ⟨0, by omega⟩)
    let (st₂, ds₂) := st₁.SetAttribute "id" (parts.get ⟨1, by omega⟩)
    { State := st₂, Diagnostics := (resp.Diagnostics.Append ds₁).Append ds₂ }

/-- The framework's `resource.CreateRequest`: the plan, decoded into the model
by `req.Plan.Get` (which cannot fail on a plan of the schema's shape). -/
structure CreateRequest where
  Plan : DNSRecordResourceModel
  deriving DecidableEq, Repr

/-- The framework's `resource.CreateResponse`; the framework hands it to
`Create` holding the null state and no diagnostics. -/
structure CreateResponse where
  State : State
  Diagnostics : Diagnostics
  deriving DecidableEq, Repr

/-- Go `DNSRecordResource.Create`. Reading the plan adds no diagnostic; the
check of `resp.Diagnostics.HasError()` that follows it (before `createReq` is
built and anything is sent) looks at the diagnostics the response was handed
in with. -/
def DNSRecordResource.Create (w : World) (r : DNSRecordResource) (req : CreateRequest)
    (resp : CreateResponse) : CreateResponse :=
  let data := req.Plan
  let createReq : CreateDNSRecordRequest :=
    { SecretAPIKey := "", APIKey := "",
      Name := data.Name.ValueString,
      Type_ := data.Type_.ValueString,
      Content := data.Content.ValueString,
      TTL := data.TTL.ValueString,
      Prio := data.Prio.ValueString,
      Notes := data.Notes.ValueString }
  if resp.Diagnostics.HasError then resp
  else
    match r.client.CreateDNSRecord w data.Domain.ValueString createReq with
    | Except.error err =>
      { resp with
        Diagnostics :=
          resp.Diagnostics.AddError "Client Error" ("Unable to create DNS record: " ++ err) }
    | Except.ok id =>
      let data := { data with ID := types.StringValue id }
      let (st, ds) := resp.State.Set data
      { State := st, Diagnostics := resp.Diagnostics.Append ds }

/-- The framework's `resource.UpdateRequest`: the plan, decoded into the model. -/
structure UpdateRequest where
  Plan : DNSRecordResourceModel
  deriving DecidableEq, Repr

/-- The framework's `resource.UpdateResponse`; the framework hands it to
`Update` holding the prior state and no diagnostics. -/
structure UpdateResponse where
  State : State
  Diagnostics : Diagnostics
  deriving DecidableEq, Repr

/-- Go `DNSRecordResource.Update`. Reading the plan adds no diagnostic; the
check of `resp.Diagnostics.HasError()` that follows it looks at the
diagnostics the response was handed in with. -/
def DNSRecordResource.Update (w : World) (r : DNSRecordResource) (req : UpdateRequest)
    (resp : UpdateResponse) : UpdateResponse :=
  let data := req.Plan
  let editReq : EditDNSRecordRequest :=
    { SecretAPIKey := "", APIKey := "",
      Name := data.Name.ValueString,
      Type_ := data.Type_.ValueString,
      Content := data.Content.ValueString,
      TTL := data.TTL.ValueString,
      Prio := data.Prio.ValueString,
      Notes := data.Notes.ValueString }
  if resp.Diagnostics.HasError then resp
  else
    match r.client.EditDNSRecord w data.Domain.ValueString data.ID.ValueString editReq with
    | Except.error err =>
      { resp with
        Diagnostics :=
          resp.Diagnostics.AddError "Client Error" ("Unable to update DNS record: " ++ err) }
    | Except.ok _ =>
      let (st, ds) := resp.State.Set data
      { State := st, Diagnostics := resp.Diagnostics.Append ds }

/-! ## Go standard library: package `sort` -/

namespace sort

/-- Go `StringSlice.Less`, the `<` of two strings: lexicographic order. -/
def Less (a b : String) : Prop := a.data < b.data

instance : DecidableRel Less :=
  fun a b => inferInstanceAs (Decidable (a.data < b.data))

/-- Go `sort.Strings`: sorts a slice of strings in increasing order. The order
is total and equal strings cannot be told apart, so every sorting algorithm
returns the same slice; it is written here as insertion sort. -/
def Strings (x : List String) : List String :=
  x.insertionSort (fun a b => ¬ Less b a)

end sort

/-! ## `domain_nameservers_resource.go` -/

/-- The two methods of `Client` that the nameserver resource calls and whose
code is not among the sources; they are parameters of the resource's
operations. -/
structure NameServerGateway where
  /-- Go `Client.UpdateNameServers(domain, nameservers)`. -/
  UpdateNameServers : Client → String → List String → Except String Unit
  /-- Go `Client.GetNameServers(domain)`. -/
  GetNameServers : Client → String → Except String (List String)

/-- Go `DomainNameServersResource`: the resource implementation, holding its
client. -/
structure DomainNameServersResource where
  client : Client
  deriving DecidableEq, Repr

/-- Go `DomainNameServersResourceModel`. `NameServers` is a known `types.Set`
of strings, given by its elements in the order in which `ElementsAs` yields
them. -/
structure DomainNameServersResourceModel where
  ID : TString
  Domain : TString
  NameServers : List TString
  deriving DecidableEq, Repr

/-- The framework's state of a nameserver resource: `none` is the null state. -/
abbrev NSState := Option DomainNameServersResourceModel

/-- The framework's request of `Create` and `Update` for the nameserver
resource: the plan, decoded into the model. -/
structure NSPlanRequest where
  Plan : DomainNameServersResourceModel
  deriving DecidableEq, Repr

/-- The framework's request of `Delete` for the nameserver resource: the prior
state, decoded into the model. -/
structure NSDeleteRequest where
  State : DomainNameServersResourceModel
  deriving DecidableEq, Repr

/-- The framework's response of `Create`, `Update` and `Delete` for the
nameserver resource. -/
structure NSResponse where
  State : NSState
  Diagnostics : Diagnostics
  deriving DecidableEq, Repr

/-- Go `DomainNameServersResource.Create`. Reading the plan adds no
diagnostic, and `ElementsAs` on a known set of strings yields its elements and
no diagnostic, so both checks of `resp.Diagnostics.HasError()` look at the
diagnostics the response was handed in with. -/
def DomainNameServersResource.Create (g : NameServerGateway)
    (r : DomainNameServersResource) (req : NSPlanRequest) (resp : NSResponse) :
    NSResponse :=
  let data := req.Plan
  if resp.Diagnostics.HasError then resp
  else
    -- Convert nameservers set to []string
    let nsElements := data.NameServers
    if resp.Diagnostics.HasError then resp
    else
      let nameservers := sort.Strings (nsElements.map TString.ValueString)
      match g.UpdateNameServers r.client data.Domain.ValueString nameservers with
      | Except.error err =>
        { resp with
          Diagnostics :=
            resp.Diagnostics.AddError "Client Error"
              ("Unable to update name servers: " ++ err) }
      | Except.ok _ =>
        let data := { data with ID := data.Domain }
        { State := some data, Diagnostics := resp.Diagnostics }

/-- Go `DomainNameServersResource.Update`, with the same two checks of
`resp.Diagnostics.HasError()` as `Create`. -/
def DomainNameServersResource.Update (g : NameServerGateway)
    (r : DomainNameServersResource) (req : NSPlanRequest) (resp : NSResponse) :
    NSResponse :=
  let data := req.Plan
  if resp.Diagnostics.HasError then resp
  else
    -- Convert nameservers set to []string
    let nsElements := data.NameServers
    if resp.Diagnostics.HasError then resp
    else
      let nameservers := sort.Strings (nsElements.map TString.ValueString)
      match g.UpdateNameServers r.client data.Domain.ValueString nameservers with
      | Except.error err =>
        { resp with
          Diagnostics :=
            resp.Diagnostics.AddError "Client Error"
              ("Unable to update name servers: " ++ err) }
      | Except.ok _ =>
        { State := some data, Diagnostics := resp.Diagnostics }

/-- Go `DomainNameServersResource.Delete`: resets to Porkbun's default name
servers. Reading the prior state adds no diagnostic; the check of
`resp.Diagnostics.HasError()` that follows it looks at the diagnostics the
response was handed in with. -/
def DomainNameServersResource.Delete (g : NameServerGateway)
    (r : DomainNameServersResource) (req : NSDeleteRequest) (resp : NSResponse) :
    NSResponse :=
  let data := req.State
  if resp.Diagnostics.HasError then resp
  else
    -- Reset to Porkbun's default name servers on delete
    let defaultNS : List String :=
      [ "curitiba.ns.porkbun.com",
        "fortaleza.ns.porkbun.com",
        "maceio.ns.porkbun.com",
        "salvador.ns.porkbun.com" ]
    match g.UpdateNameServers r.client data.Domain.ValueString defaultNS with
    | Except.error err =>
      { resp with
        Diagnostics :=
          resp.Diagnostics.AddError "Client Error"
            ("Unable to reset name servers: " ++ err) }
    | Except.ok _ => resp

/-! ## `dns_record_data_source.go` -/

/-- Go `DNSRecordDataSource`: the data source implementation, holding its
client. -/
structure DNSRecordDataSource where
  client : Client
  deriving DecidableEq, Repr

/-- Go `DNSRecordDataSourceModel`: the data source data model (`Type_` is its
field `Type`). -/
structure DNSRecordDataSourceModel where
  ID : TString
  Domain : TString
  Name : TString
  Type_ : TString
  Content : TString
  TTL : TString
  Prio : TString
  Notes : TString
  deriving DecidableEq, Repr

/-- The framework's `datasource.ReadRequest`: the configuration, decoded into
the model by `req.Config.Get` (which cannot fail on a configuration of the
schema's shape). -/
structure DSReadRequest where
  Config : DNSRecordDataSourceModel
  deriving DecidableEq, Repr

/-- The framework's `datasource.ReadResponse`; the framework hands it to
`Read` holding the null state (`none`) and no diagnostics. -/
structure DSReadResponse where
  State : Option DNSRecordDataSourceModel
  Diagnostics : Diagnostics
  deriving DecidableEq, Repr

/-- The name normalisation of `DNSRecordDataSource.Read` (the statements under
"Extract the subdomain from the full name" in the data source). -/
def DNSRecordDataSource.toRelative (domain name : String) : String :=
  if name = domain then ""
  else if strings.HasSuffix name ("." ++ domain) then
    strings.TrimSuffix name ("." ++ domain)
  else name

/-- Go `DNSRecordDataSource.Read`. Reading the configuration adds no
diagnostic; the check of `resp.Diagnostics.HasError()` that follows it looks
at the diagnostics the response was handed in with. -/
def DNSRecordDataSource.Read (w : World) (d : DNSRecordDataSource) (req : DSReadRequest)
    (resp : DSReadResponse) : DSReadResponse :=
  let data := req.Config
  if resp.Diagnostics.HasError then resp
  else
    match d.client.GetDNSRecord w data.Domain.ValueString data.ID.ValueString with
    | Except.error err =>
      { resp with
        Diagnostics :=
          resp.Diagnostics.AddError "Client Error" ("Unable to read DNS record: " ++ err) }
    | Except.ok record =>
      let name := DNSRecordDataSource.toRelative data.Domain.ValueString record.Name
      let data :=
        { data with
          Name := types.StringValue name
          Type_ := types.StringValue record.Type_
          Content := types.StringValue record.Content
          TTL := types.StringValue record.TTL
          Prio := types.StringValue record.Prio
          Notes := types.StringValue record.Notes }
      { State := some data, Diagnostics := resp.Diagnostics.Append [] }

/-! ## `provider.go` -/

/-- The framework's `types.String.IsNull`. -/
def TString.IsNull : TString → Bool
  | TString.null => true
  | _ => false

/-- Go `PorkbunProvider`: the provider implementation. -/
structure PorkbunProvider where
  version : String
  deriving DecidableEq, Repr

/-- Go `PorkbunProviderModel`: the provider data model. -/
structure PorkbunProviderModel where
  APIKey : TString
  SecretAPIKey : TString
  deriving DecidableEq, Repr

/-- The framework's `provider.ConfigureRequest`: the configuration, decoded
into the model by `req.Config.Get`. -/
structure ConfigureRequest where
  Config : PorkbunProviderModel
  deriving DecidableEq, Repr

/-- The framework's `provider.ConfigureResponse`; `none` is a `nil`
`DataSourceData` or `ResourceData`. -/
structure ConfigureResponse where
  Diagnostics : Diagnostics
  DataSourceData : Option Client
  ResourceData : Option Client
  deriving DecidableEq, Repr

/-- Go `PorkbunProvider.Configure`. `Getenv` is `os.Getenv`. The second
component lists the clients on which `Ping` was called, in order. -/
def PorkbunProvider.Configure (w : World) (Getenv : String → String)
    (_p : PorkbunProvider) (req : ConfigureRequest) (resp : ConfigureResponse) :
    ConfigureResponse × List Client :=
  let config := req.Config
  if resp.Diagnostics.HasError then (resp, [])
  else
    -- Get API key from config or environment
    let apiKey := Getenv "PORKBUN_API_KEY"
    let apiKey := if !config.APIKey.IsNull then config.APIKey.ValueString else apiKey
    -- Get Secret API key from config or environment
    let secretAPIKey := Getenv "PORKBUN_SECRET_API_KEY"
    let secretAPIKey :=
      if !config.SecretAPIKey.IsNull then config.SecretAPIKey.ValueString else secretAPIKey
    let resp :=
      if apiKey = "" then
        { resp with
          Diagnostics :=
            resp.Diagnostics.AddError "Missing API Key"
              ("The provider cannot create the Porkbun API client as there is a missing or empty value for the Porkbun API key. "
                ++ "Set the api_key value in the configuration or use the PORKBUN_API_KEY environment variable.") }
      else resp
    let resp :=
      if secretAPIKey = "" then
        { resp with
          Diagnostics :=
            resp.Diagnostics.AddError "Missing Secret API Key"
              ("The provider cannot create the Porkbun API client as there is a missing or empty value for the Porkbun Secret API key. "
                ++ "Set the secret_api_key value in the configuration or use the PORKBUN_SECRET_API_KEY environment variable.") }
      else resp
    if resp.Diagnostics.HasError then (resp, [])
    else
      -- Create a new Porkbun client
      let client := NewClient apiKey secretAPIKey
      -- Test the connection
      match client.Ping w with
      | Except.error err =>
        ({ resp with
           Diagnostics :=
             resp.Diagnostics.AddError "Unable to Create Porkbun API Client"
               ("An unexpected error occurred when creating the Porkbun API client. "
                 ++ "If the error is not clear, please contact the provider developers.\n\n"
                 ++ "Porkbun Client Error: " ++ err) },
         [client])
      | Except.ok _ =>
        ({ resp with DataSourceData := some client, ResourceData := some client }, [client])

/-! ## Go standard library: package `encoding/json`, on the request types -/

namespace json

/-- A struct field as `json.Marshal` sees it: the key given by its `json` tag,
whether the tag says `omitempty`, and its value (all fields here are
strings). -/
structure Field where
  Key : String
  OmitEmpty : Bool
  Value : String
  deriving DecidableEq, Repr

/-- The members of the JSON object that `json.Marshal` writes for a struct:
one per field, in the order of the fields, leaving out each field that is
tagged `omitempty` and holds the empty string. -/
def Members (fields : List Field) : List (String × String) :=
  (fields.filter (fun f => !(f.OmitEmpty && f.Value == ""))).map
    (fun f => (f.Key, f.Value))

end json

/-- The fields of Go `authRequest` with their `json` tags:
`secretapikey`, `apikey`. -/
def authRequest.jsonFields (a : authRequest) : List json.Field :=
  [ { Key := "secretapikey", OmitEmpty := false, Value := a.SecretAPIKey },
    { Key := "apikey", OmitEmpty := false, Value := a.APIKey } ]

/-- The fields of Go `CreateDNSRecordRequest` with their `json` tags: those of
the embedded `authRequest`, then `name,omitempty`, `type`, `content`,
`ttl,omitempty`, `prio,omitempty`, `notes,omitempty`. -/
def CreateDNSRecordRequest.jsonFields (r : CreateDNSRecordRequest) : List json.Field :=
  r.toauthRequest.jsonFields ++
  [ { Key := "name", OmitEmpty := true, Value := r.Name },
    { Key := "type", OmitEmpty := false, Value := r.Type_ },
    { Key := "content", OmitEmpty := false, Value := r.Content },
    { Key := "ttl", OmitEmpty := true, Value := r.TTL },
    { Key := "prio", OmitEmpty := true, Value := r.Prio },
    { Key := "notes", OmitEmpty := true, Value := r.Notes } ]

/-- The fields of Go `EditDNSRecordRequest` with their `json` tags: those of
the embedded `authRequest`, then `name,omitempty`, `type`, `content`,
`ttl,omitempty`, `prio,omitempty`, `notes,omitempty`. -/
def EditDNSRecordRequest.jsonFields (r : EditDNSRecordRequest) : List json.Field :=
  r.toauthRequest.jsonFields ++
  [ { Key := "name", OmitEmpty := true, Value := r.Name },
    { Key := "type", OmitEmpty := false, Value := r.Type_ },
    { Key := "content", OmitEmpty := false, Value := r.Content },
    { Key := "ttl", OmitEmpty := true, Value := r.TTL },
    { Key := "prio", OmitEmpty := true, Value := r.Prio },
    { Key := "notes", OmitEmpty := true, Value := r.Notes } ]

/-- The JSON object that `json.Marshal` writes for a request payload: its
members, each a key and a string value, in order. -/
def Payload.jsonObject : Payload → List (String × String)
  | Payload.auth a => json.Members a.jsonFields
  | Payload.create r => json.Members r.jsonFields
  | Payload.edit r => json.Members r.jsonFields

/-- The keys of the JSON object written for a payload. -/
def Payload.jsonKeys (p : Payload) : List String :=
  p.jsonObject.map Prod.fst

/-! ## The spec's side of the name conversion -/

/-- The spec's `toAbsolute` (its `fullyQualified`), the remote system's naming
of a record, written from the spec's words since the provider never computes
it: `toAbsolute(d, "") = d` and `toAbsolute(d, f) = f + "." + d` otherwise. -/
def Spec.toAbsolute (domain fragment : String) : String :=
  if fragment = "" then domain else fragment ++ "." ++ domain

/-- The spec's rule for a credential, written from its words ("explicit
configuration taking precedence over named environment variables"): the
configured value when one is set, the environment's value otherwise. -/
def Spec.credential (configured : TString) (env : String) : String :=
  match configured with
  | TString.null => env
  | c => c.ValueString

/-! ## Concrete worlds and states

The closed statements below are evaluated on these. -/

/-- The credentials of a payload, whichever request type it is. -/
def Payload.credentials : Payload → authRequest
  | Payload.auth a => a
  | Payload.create r => r.toauthRequest
  | Payload.edit r => r.toauthRequest

/-- A world in which every request is encoded, built and sent without error;
the server answers with status code `code` and body `body`, and the JSON codec
decodes that body to `decoded` (its status and message alone when the target
is an `APIResponse`, with id `0` when it is a `CreateDNSRecordResponse`, as
`json.Unmarshal` does for a body without an `id` key). The encoding of a
payload shows its credentials only. -/
def World.answering (code : Nat) (body : String)
    (decoded : Except String RetrieveDNSRecordsResponse) : World :=
  { Marshal := fun p =>
      Except.ok ("\x7b\"secretapikey\":\"" ++ p.credentials.SecretAPIKey
        ++ "\",\"apikey\":\"" ++ p.credentials.APIKey ++ "\"\x7d")
    NewRequestErr := fun _ _ _ => none
    Do := fun _ => Except.ok { StatusCode := code, Body := Except.ok body }
    UnmarshalRetrieve := fun _ => decoded
    UnmarshalAPI := fun _ =>
      match decoded with
      | Except.error err => Except.error err
      | Except.ok r => Except.ok r.toAPIResponse
    UnmarshalCreate := fun _ =>
      match decoded with
      | Except.error err => Except.error err
      | Except.ok r => Except.ok { toAPIResponse := r.toAPIResponse, ID := 0 } }

/-- A configured record resource. -/
def exampleResource : DNSRecordResource :=
  { client := NewClient "pk1_key" "sk1_secret" }

/-- A tracked record: `www.example.com A 192.0.2.1`, id `12345`. -/
def exampleState : DNSRecordResourceModel :=
  { ID := TString.value "12345", Domain := TString.value "example.com",
    Name := TString.value "www", Type_ := TString.value "A",
    Content := TString.value "192.0.2.1", TTL := TString.value "600",
    Prio := TString.value "0", Notes := TString.value "" }

/-- The world `World.answering 200`, in which moreover the body decodes, as a
`CreateDNSRecordResponse`, to status `SUCCESS` with the id `id`. -/
def World.creating (id : Int) : World :=
  { World.answering 200 "status SUCCESS, id"
      (Except.ok { Status := "SUCCESS", Message := "", Records := [] }) with
    UnmarshalCreate := fun _ => Except.ok { Status := "SUCCESS", Message := "", ID := id } }

/-- A nameserver gateway that shows what it is given: its update fails, and
the error text names the domain and lists the nameservers it received, each
between `<` and `>`. -/
def NameServerGateway.echoing : NameServerGateway :=
  { UpdateNameServers := fun _ domain nameservers =>
      Except.error (domain ++ " " ++ String.join (nameservers.map (fun n => "<" ++ n ++ ">")))
    GetNameServers := fun _ _ => Except.ok [] }

/-- A configured nameserver resource. -/
def exampleNSResource : DomainNameServersResource :=
  { client := NewClient "pk1_key" "sk1_secret" }

/-- The members of a JSON object written out as text, without escaping (the
values used below need none). -/
def renderMembers (ms : List (String × String)) : String :=
  "\x7b" ++
    String.join ((ms.map (fun m => "\"" ++ m.1 ++ "\":\"" ++ m.2 ++ "\"")).intersperse ",")
    ++ "\x7d"

/-- A world that shows what is sent: a payload is encoded as the text of its
JSON object, and the network fails with the body of the request it was given
as its error text. -/
def World.echoing : World :=
  { Marshal := fun p => Except.ok (renderMembers p.jsonObject)
    NewRequestErr := fun _ _ _ => none
    Do := fun req => Except.error (req.Body.getD "")
    UnmarshalRetrieve := fun _ => Except.error "no response"
    UnmarshalAPI := fun _ => Except.error "no response"
    UnmarshalCreate := fun _ => Except.error "no response" }

/-- An environment in which only `PORKBUN_API_KEY` is set, to `pk1_env`. -/
def exampleGetenv (key : String) : String :=
  if key = "PORKBUN_API_KEY" then "pk1_env" else ""

/-- A configured data source. -/
def exampleDataSource : DNSRecordDataSource :=
  { client := NewClient "pk1_key" "sk1_secret" }

/-- The configuration of a data source for the record `example.com/12345`. -/
def exampleDSConfig : DNSRecordDataSourceModel :=
  { ID := TString.value "12345", Domain := TString.value "example.com",
    Name := TString.null, Type_ := TString.null, Content := TString.null,
    TTL := TString.null, Prio := TString.null, Notes := TString.null }

/-! ## Lemmas on the string functions -/

namespace strings

theorem HasSuffix_iff (s suffix : String) :
    HasSuffix s suffix = true ↔ ∃ r : String, s = r ++ suffix := by
  unfold HasSuffix
  rw [Bool.and_eq_true, decide_eq_true_eq, beq_iff_eq]
  constructor
  · rintro ⟨_, hdrop⟩
    refine ⟨String.mk (s.data.take (s.data.length - suffix.data.length)), ?_⟩
    apply String.ext
    rw [String.data_append]
    calc s.data
        = s.data.take (s.data.length - suffix.data.length) ++
            s.data.drop (s.data.length - suffix.data.length) :=
          (List.take_append_drop _ _).symm
      _ = s.data.take (s.data.length - suffix.data.length) ++ suffix.data := by rw [hdrop]
  · rintro ⟨r, rfl⟩
    simp [String.data_append]

theorem HasSuffix_append (r suffix : String) : HasSuffix (r ++ suffix) suffix = true :=
  (HasSuffix_iff _ _).2 ⟨r, rfl⟩

theorem TrimSuffix_append (r suffix : String) : TrimSuffix (r ++ suffix) suffix = r := by
  unfold TrimSuffix
  rw [if_pos (HasSuffix_append r suffix)]
  apply String.ext
  simp [String.data_append]

theorem splitChars_ne_nil (sep : Char) (l : List Char) : splitChars sep l ≠ [] := by
  induction l with
  | nil => simp [splitChars]
  | cons c cs ih =>
    unfold splitChars
    split
    · simp
    · split <;> simp

theorem length_splitChars (sep : Char) (l : List Char) :
    (splitChars sep l).length = l.count sep + 1 := by
  induction l with
  | nil => simp [splitChars]
  | cons c cs ih =>
    unfold splitChars
    by_cases hc : c = sep
    · subst hc
      simp [ih]
    · rw [if_neg hc, List.count_cons_of_ne (Ne.symm hc), ← ih]
      split
      · next h => exact absurd h (splitChars_ne_nil sep cs)
      · next p ps h => simp [h]

theorem splitChars_of_not_mem (sep : Char) (l : List Char) (h : sep ∉ l) :
    splitChars sep l = [l] := by
  induction l with
  | nil => simp [splitChars]
  | cons c cs ih =>
    have hc : c ≠ sep := fun e => h (by simp [e])
    have hcs : sep ∉ cs := fun e => h (by simp [e])
    unfold splitChars
    rw [if_neg hc, ih hcs]

theorem splitChars_append_sep (sep : Char) (l rest : List Char) (h : sep ∉ l) :
    splitChars sep (l ++ sep :: rest) = l :: splitChars sep rest := by
  induction l with
  | nil => simp [splitChars]
  | cons c cs ih =>
    have hc : c ≠ sep := fun e => h (by simp [e])
    have hcs : sep ∉ cs := fun e => h (by simp [e])
    rw [List.cons_append, splitChars, if_neg hc, ih hcs]

theorem Split_values :
    Split "example.com/12345" '/' = ["example.com", "12345"] ∧
    Split "a/b/c" '/' = ["a", "b", "c"] ∧
    Split "example.com" '/' = ["example.com"] ∧
    Split "" '/' = [""] := by
  decide

theorem length_Split (s : String) (sep : Char) :
    (Split s sep).length = s.data.count sep + 1 := by
  simp [Split, length_splitChars]

theorem Split_join (d i : String) (hd : '/' ∉ d.data) (hi : '/' ∉ i.data) :
    Split (d ++ "/" ++ i) '/' = [d, i] := by
  have hdata : (d ++ "/" ++ i).data = d.data ++ '/' :: i.data := by
    simp [String.data_append]
  unfold Split
  rw [hdata, splitChars_append_sep _ _ _ hd, splitChars_of_not_mem _ _ hi]
  rfl

end strings

/-! ## Record reconciler: `Read` and the failure kinds -/

theorem GetDNSRecord_eq (w : World) (c : Client) (domain recordID : String) :
    c.GetDNSRecord w domain recordID =
      match c.retrieveBody w domain recordID with
      | Except.error err => Except.error err
      | Except.ok respBody =>
        match w.UnmarshalRetrieve respBody with
        | Except.error err => Except.error ("failed to parse response: " ++ err)
        | Except.ok resp =>
          if resp.Status ≠ "SUCCESS" then
            Except.error ("failed to retrieve DNS record: " ++ resp.Message)
          else
            match resp.Records with
            | [] => Except.error "DNS record not found"
            | record :: _ => Except.ok record := by
  unfold Client.GetDNSRecord Client.retrieveBody
  dsimp only
  generalize c.doRequest w "POST" ("/dns/retrieve/" ++ domain ++ "/" ++ recordID)
      (some (Payload.auth { SecretAPIKey := c.secretAPIKey, APIKey := c.apiKey })) = res
  cases res with
  | error e => rfl
  | ok body =>
    dsimp only
    generalize w.UnmarshalRetrieve body = dec
    cases dec with
    | error e => rfl
    | ok resp =>
      dsimp only
      rcases resp with ⟨base, recs⟩
      cases recs <;> simp

/-- C1 (the code at the failing input). The server answers the retrieval of
the tracked record `example.com/12345` with transport status 404 and the body
`404 page not found`. `doRequest` fails with the text
`API returned status 404: 404 page not found`, and `Read` removes the record
from the tracked state and reports no diagnostic. -/
theorem C1_transport_failure_taken_for_not_found :
    Client.retrieveBody (World.answering 404 "404 page not found" (Except.error "unexpected end"))
        exampleResource.client "example.com" "12345"
      = Except.error "API returned status 404: 404 page not found" ∧
    DNSRecordResource.Read
        (World.answering 404 "404 page not found" (Except.error "unexpected end"))
        exampleResource { State := exampleState }
        { State := some exampleState, Diagnostics := [] }
      = { State := none, Diagnostics := [] } := by
  constructor
  · rfl
  · decide

/-- C2. Whatever record is tracked (any domain, any id): when `Read` is handed
a response without errors, the retrieval request succeeds at the transport
level and its body decodes to a response with status `SUCCESS` and an empty
records list, `Read` removes the record from the tracked state and adds no
diagnostic. -/
theorem C2_read_zero_records_removes_record (w : World) (r : DNSRecordResource)
    (req : ReadRequest) (resp : ReadResponse) (body : String)
    (res : RetrieveDNSRecordsResponse)
    (hbody : r.client.retrieveBody w req.State.Domain.ValueString req.State.ID.ValueString
      = Except.ok body)
    (hclean : resp.Diagnostics.HasError = false)
    (hdec : w.UnmarshalRetrieve body = Except.ok res)
    (hstatus : res.Status = "SUCCESS") (hrecs : res.Records = []) :
    DNSRecordResource.Read w r req resp
      = { State := none, Diagnostics := resp.Diagnostics } := by
  have hget : r.client.GetDNSRecord w req.State.Domain.ValueString req.State.ID.ValueString
      = Except.error "DNS record not found" := by
    rw [GetDNSRecord_eq, hbody]
    simp only [hdec, hstatus, hrecs]
    rfl
  have hcontains : strings.Contains "DNS record not found" "not found" = true := by decide
  unfold DNSRecordResource.Read
  simp only [hclean, Bool.false_eq_true, if_false, hget, hcontains, if_true,
    State.RemoveResource]

/-- C2 at a concrete input: the tracked record `example.com/12345`, answered
with status `SUCCESS` and no records. -/
theorem C2_read_zero_records_removes_record_witness :
    DNSRecordResource.Read
        (World.answering 200 "status SUCCESS, no records"
          (Except.ok { Status := "SUCCESS", Message := "", Records := [] }))
        exampleResource { State := exampleState }
        { State := some exampleState, Diagnostics := [] }
      = { State := none, Diagnostics := [] } :=
  C2_read_zero_records_removes_record
    (World.answering 200 "status SUCCESS, no records"
      (Except.ok { Status := "SUCCESS", Message := "", Records := [] }))
    exampleResource { State := exampleState }
    { State := some exampleState, Diagnostics := [] }
    "status SUCCESS, no records" { Status := "SUCCESS", Message := "", Records := [] }
    rfl (by decide) rfl rfl rfl

/-- C3 (the code at the failing input). The retrieval of the tracked record
`example.com/12345` is answered with body status `ERROR` and the remote
message `Domain not found in account`. `GetDNSRecord` fails with
`failed to retrieve DNS record: Domain not found in account`, and `Read`
removes the record from the tracked state and reports no diagnostic. -/
theorem C3_remote_failure_taken_for_not_found :
    exampleResource.client.GetDNSRecord
        (World.answering 200 "status ERROR"
          (Except.ok { Status := "ERROR", Message := "Domain not found in account",
                       Records := [] }))
        "example.com" "12345"
      = Except.error "failed to retrieve DNS record: Domain not found in account" ∧
    DNSRecordResource.Read
        (World.answering 200 "status ERROR"
          (Except.ok { Status := "ERROR", Message := "Domain not found in account",
                       Records := [] }))
        exampleResource { State := exampleState }
        { State := some exampleState, Diagnostics := [] }
      = { State := none, Diagnostics := [] } := by
  constructor
  · rfl
  · decide

/-! ## Import resolver: `ImportState` -/

theorem ImportState_of_length_ne (req : ImportStateRequest) (resp : ImportStateResponse)
    (h : (strings.Split req.ID '/').length ≠ 2) :
    DNSRecordResource.ImportState req resp
      = { State := resp.State,
          Diagnostics :=
            resp.Diagnostics.AddError "Invalid Import ID"
              ("Expected import ID in format 'domain/record_id', got: " ++ req.ID) } := by
  unfold DNSRecordResource.ImportState
  rw [dif_pos h]

theorem ImportState_of_two_parts (req : ImportStateRequest) (resp : ImportStateResponse)
    (a b : String) (h : strings.Split req.ID '/' = [a, b]) :
    DNSRecordResource.ImportState req resp
      = { State :=
            some { resp.State.getD DNSRecordResourceModel.null with
                   Domain := TString.value a, ID := TString.value b },
          Diagnostics := resp.Diagnostics } := by
  unfold DNSRecordResource.ImportState
  simp [h, State.SetAttribute, Diagnostics.Append, types.StringValue]

theorem exists_parts_of_count_one (l : List Char) (sep : Char) (h : l.count sep = 1) :
    ∃ a b : List Char, sep ∉ a ∧ sep ∉ b ∧ l = a ++ sep :: b := by
  induction l with
  | nil => simp at h
  | cons c cs ih =>
    by_cases hc : c = sep
    · subst hc
      refine ⟨[], cs, by simp, ?_, by simp⟩
      rw [List.count_cons_self] at h
      exact List.count_eq_zero.1 (by omega)
    · rw [List.count_cons_of_ne (Ne.symm hc)] at h
      obtain ⟨a, b, ha, hb, hl⟩ := ih h
      refine ⟨c :: a, b, ?_, hb, by simp [hl]⟩
      simp [ha, Ne.symm hc]

/-- C4 (the code at the failing inputs). The import ids `/`, `/12345` and
`example.com/` split into two parts of which one is empty, and `ImportState`
accepts each of them: no diagnostic is reported and the empty part is stored
as domain or id. -/
theorem C4_empty_part_is_accepted :
    (strings.Split "/" '/' = ["", ""] ∧
      DNSRecordResource.ImportState { ID := "/" } { State := none, Diagnostics := [] }
        = { State := some { DNSRecordResourceModel.null with
                            Domain := TString.value "", ID := TString.value "" },
            Diagnostics := [] }) ∧
    (strings.Split "/12345" '/' = ["", "12345"] ∧
      DNSRecordResource.ImportState { ID := "/12345" } { State := none, Diagnostics := [] }
        = { State := some { DNSRecordResourceModel.null with
                            Domain := TString.value "", ID := TString.value "12345" },
            Diagnostics := [] }) ∧
    (strings.Split "example.com/" '/' = ["example.com", ""] ∧
      DNSRecordResource.ImportState { ID := "example.com/" }
          { State := none, Diagnostics := [] }
        = { State := some { DNSRecordResourceModel.null with
                            Domain := TString.value "example.com", ID := TString.value "" },
            Diagnostics := [] }) := by
  decide

theorem ImportState_fails_iff_not_two_parts (req : ImportStateRequest)
    (resp : ImportStateResponse) :
    ((DNSRecordResource.ImportState req resp).Diagnostics
        = resp.Diagnostics.AddError "Invalid Import ID"
            ("Expected import ID in format 'domain/record_id', got: " ++ req.ID)
      ↔ (strings.Split req.ID '/').length ≠ 2) ∧
    ((strings.Split req.ID '/').length ≠ 2 ↔ req.ID.data.count '/' ≠ 1) ∧
    (req.ID.data.count '/' = 1 →
      ∃ d i : String, req.ID = d ++ "/" ++ i ∧
        DNSRecordResource.ImportState req resp
          = { State :=
                some { resp.State.getD DNSRecordResourceModel.null with
                       Domain := TString.value d, ID := TString.value i },
              Diagnostics := resp.Diagnostics }) := by
  have hone : req.ID.data.count '/' = 1 →
      ∃ d i : String, req.ID = d ++ "/" ++ i ∧
        DNSRecordResource.ImportState req resp
          = { State :=
                some { resp.State.getD DNSRecordResourceModel.null with
                       Domain := TString.value d, ID := TString.value i },
              Diagnostics := resp.Diagnostics } := by
    intro h
    obtain ⟨a, b, ha, hb, hl⟩ := exists_parts_of_count_one _ _ h
    have hid : req.ID = String.mk a ++ "/" ++ String.mk b := by
      apply String.ext
      simp [String.data_append, hl]
    refine ⟨String.mk a, String.mk b, hid, ?_⟩
    apply ImportState_of_two_parts
    rw [hid]
    exact strings.Split_join _ _ ha hb
  have hlen : (strings.Split req.ID '/').length ≠ 2 ↔ req.ID.data.count '/' ≠ 1 := by
    rw [strings.length_Split]
    omega
  refine ⟨⟨?_, ?_⟩, hlen, hone⟩
  · intro hdiag hsplit
    have hcount : req.ID.data.count '/' = 1 := by
      by_contra hc
      exact (hlen.2 hc) hsplit
    obtain ⟨d, i, _, himp⟩ := hone hcount
    rw [himp] at hdiag
    have := congrArg List.length hdiag
    simp [Diagnostics.AddError] at this
  · intro hsplit
    rw [ImportState_of_length_ne req resp hsplit]

/-- C5. For every raw record import id that contains no `/` or more than one
`/`, `ImportState` reports the `Invalid Import ID` format error and leaves the
state as it was handed in: neither domain nor id is set. -/
theorem C5_import_rejects_zero_or_many_slashes (req : ImportStateRequest)
    (resp : ImportStateResponse)
    (h : req.ID.data.count '/' = 0 ∨ 2 ≤ req.ID.data.count '/') :
    DNSRecordResource.ImportState req resp
      = { State := resp.State,
          Diagnostics :=
            resp.Diagnostics ++
              [{ Severity := Severity.error, Summary := "Invalid Import ID",
                 Detail := "Expected import ID in format 'domain/record_id', got: " ++ req.ID }] } := by
  have hlen : (strings.Split req.ID '/').length ≠ 2 := by
    rw [strings.length_Split]
    omega
  rw [ImportState_of_length_ne req resp hlen]
  rfl

/-- C5 at the import ids `example.com` (no slash) and `a/b/c` (two slashes). -/
theorem C5_import_rejects_zero_or_many_slashes_witness :
    DNSRecordResource.ImportState { ID := "example.com" } { State := none, Diagnostics := [] }
      = { State := none,
          Diagnostics :=
            [{ Severity := Severity.error, Summary := "Invalid Import ID",
               Detail := "Expected import ID in format 'domain/record_id', got: example.com" }] } ∧
    DNSRecordResource.ImportState { ID := "a/b/c" } { State := none, Diagnostics := [] }
      = { State := none,
          Diagnostics :=
            [{ Severity := Severity.error, Summary := "Invalid Import ID",
               Detail := "Expected import ID in format 'domain/record_id', got: a/b/c" }] } :=
  ⟨C5_import_rejects_zero_or_many_slashes { ID := "example.com" }
      { State := none, Diagnostics := [] } (Or.inl (by decide)),
   C5_import_rejects_zero_or_many_slashes { ID := "a/b/c" }
      { State := none, Diagnostics := [] } (Or.inr (by decide))⟩

/-- C6. For every non-empty domain `d` and non-empty record id `i` that both
contain no `/`, `ImportState` on `d + "/" + i` reports nothing and sets the
state's domain to `d` and its id to `i`. -/
theorem C6_import_parses_domain_slash_id (d i : String) (resp : ImportStateResponse)
    (_hd : d ≠ "") (_hi : i ≠ "") (hds : '/' ∉ d.data) (his : '/' ∉ i.data) :
    DNSRecordResource.ImportState { ID := d ++ "/" ++ i } resp
      = { State :=
            some { resp.State.getD DNSRecordResourceModel.null with
                   Domain := types.StringValue d, ID := types.StringValue i },
          Diagnostics := resp.Diagnostics } :=
  ImportState_of_two_parts { ID := d ++ "/" ++ i } resp d i (strings.Split_join d i hds his)

/-- C6 at the import id `example.com/12345`. -/
theorem C6_import_parses_domain_slash_id_witness :
    DNSRecordResource.ImportState { ID := "example.com/12345" }
        { State := none, Diagnostics := [] }
      = { State :=
            some { DNSRecordResourceModel.null with
                   Domain := TString.value "example.com", ID := TString.value "12345" },
          Diagnostics := [] } :=
  C6_import_parses_domain_slash_id "example.com" "12345"
    { State := none, Diagnostics := [] } (by decide) (by decide) (by decide) (by decide)

/-! ## Name normaliser -/

theorem append_dot_ne (d f : String) : f ++ "." ++ d ≠ d := by
  intro h
  have := congrArg String.length h
  simp [String.length_append] at this
  exact absurd this.2 (by decide)

theorem toRelative_self (d : String) : DNSRecordResource.toRelative d d = "" := by
  unfold DNSRecordResource.toRelative
  rw [if_pos rfl]

theorem toRelative_append (d f : String) :
    DNSRecordResource.toRelative d (f ++ "." ++ d) = f := by
  unfold DNSRecordResource.toRelative
  rw [if_neg (append_dot_ne d f), String.append_assoc,
    if_pos (strings.HasSuffix_append f ("." ++ d)), strings.TrimSuffix_append]

theorem toRelative_of_suffix (d n : String) (hne : n ≠ d)
    (hsuf : strings.HasSuffix n ("." ++ d) = true) :
    DNSRecordResource.toRelative d n ++ "." ++ d = n := by
  obtain ⟨f, rfl⟩ := (strings.HasSuffix_iff _ _).1 hsuf
  rw [← String.append_assoc, toRelative_append]

theorem Read_of_ok (w : World) (r : DNSRecordResource) (req : ReadRequest)
    (resp : ReadResponse) (record : DNSRecord)
    (hclean : resp.Diagnostics.HasError = false)
    (hget : r.client.GetDNSRecord w req.State.Domain.ValueString req.State.ID.ValueString
      = Except.ok record) :
    DNSRecordResource.Read w r req resp
      = { State :=
            some { req.State with
                   Name := types.StringValue
                     (DNSRecordResource.toRelative req.State.Domain.ValueString record.Name)
                   Type_ := types.StringValue record.Type_
                   Content := types.StringValue record.Content
                   TTL := types.StringValue record.TTL
                   Prio := types.StringValue record.Prio
                   Notes := types.StringValue record.Notes },
          Diagnostics := resp.Diagnostics } := by
  unfold DNSRecordResource.Read
  simp [hclean, hget, State.Set, Diagnostics.Append]

/-- C7. For every domain `d` and every fragment `f` (empty, dot-free, or
itself containing dots), normalising the full name that the remote system
forms from `f` gives `f` back: `toRelative(d, toAbsolute(d, f)) = f`. -/
theorem C7_toRelative_toAbsolute (d f : String) :
    DNSRecordResource.toRelative d (Spec.toAbsolute d f) = f := by
  unfold Spec.toAbsolute
  by_cases hf : f = ""
  · rw [if_pos hf, toRelative_self, hf]
  · rw [if_neg hf, toRelative_append]

/-- C8 (counterexample). The full name `.example.com` ends with
`"." + "example.com"`, yet it normalises to the empty fragment, whose absolute
form is `example.com`: the conversion does not give `.example.com` back. -/
theorem C8_leading_dot_name_not_recovered :
    strings.HasSuffix ".example.com" ("." ++ "example.com") = true ∧
    DNSRecordResource.toRelative "example.com" ".example.com" = "" ∧
    Spec.toAbsolute "example.com"
        (DNSRecordResource.toRelative "example.com" ".example.com") = "example.com" ∧
    Spec.toAbsolute "example.com"
        (DNSRecordResource.toRelative "example.com" ".example.com") ≠ ".example.com" := by
  decide

/-- C8 (amended). For every domain `d` and every full name `n` that is `d`
itself or `f + "." + d` for a non-empty fragment `f`,
`toAbsolute(d, toRelative(d, n)) = n`. -/
theorem C8_toAbsolute_toRelative (d n : String)
    (h : n = d ∨ ∃ f : String, f ≠ "" ∧ n = f ++ "." ++ d) :
    Spec.toAbsolute d (DNSRecordResource.toRelative d n) = n := by
  rcases h with rfl | ⟨f, hf, rfl⟩
  · rw [toRelative_self]
    rfl
  · rw [toRelative_append]
    unfold Spec.toAbsolute
    rw [if_neg hf]

/-- C8 (amended) at the full names `example.com` and `a.b.example.com`. -/
theorem C8_toAbsolute_toRelative_witness :
    Spec.toAbsolute "example.com"
        (DNSRecordResource.toRelative "example.com" "example.com") = "example.com" ∧
    Spec.toAbsolute "example.com"
        (DNSRecordResource.toRelative "example.com" "a.b.example.com") = "a.b.example.com" :=
  ⟨C8_toAbsolute_toRelative "example.com" "example.com" (Or.inl rfl),
   C8_toAbsolute_toRelative "example.com" "a.b.example.com"
     (Or.inr ⟨"a.b", by decide, by decide⟩)⟩

/-- C9. For every domain `d`, `toRelative(d, d) = ""`; and when `Read` is
handed a response without errors and the record it retrieves carries the
tracked domain itself as its full name, the name that `Read` stores is the
empty string (apex). -/
theorem C9_apex_name_is_empty (d : String) (w : World) (r : DNSRecordResource)
    (req : ReadRequest) (resp : ReadResponse) (record : DNSRecord)
    (hclean : resp.Diagnostics.HasError = false)
    (hget : r.client.GetDNSRecord w req.State.Domain.ValueString req.State.ID.ValueString
      = Except.ok record)
    (hname : record.Name = req.State.Domain.ValueString) :
    DNSRecordResource.toRelative d d = "" ∧
    (DNSRecordResource.Read w r req resp).State.map DNSRecordResourceModel.Name
      = some (types.StringValue "") := by
  refine ⟨toRelative_self d, ?_⟩
  rw [Read_of_ok w r req resp record hclean hget, hname, toRelative_self]
  rfl

/-- C9 at a concrete input: the record retrieved for `example.com/12345` is
named `example.com`. -/
theorem C9_apex_name_is_empty_witness :
    DNSRecordResource.toRelative "example.com" "example.com" = "" ∧
    (DNSRecordResource.Read
        (World.answering 200 "status SUCCESS, one record"
          (Except.ok
            { Status := "SUCCESS", Message := "",
              Records := [{ ID := "12345", Name := "example.com", Type_ := "A",
                            Content := "192.0.2.1", TTL := "600", Prio := "0",
                            Notes := "" }] }))
        exampleResource { State := exampleState }
        { State := some exampleState, Diagnostics := [] }).State.map
          DNSRecordResourceModel.Name
      = some (types.StringValue "") :=
  C9_apex_name_is_empty "example.com"
    (World.answering 200 "status SUCCESS, one record"
      (Except.ok
        { Status := "SUCCESS", Message := "",
          Records := [{ ID := "12345", Name := "example.com", Type_ := "A",
                        Content := "192.0.2.1", TTL := "600", Prio := "0",
                        Notes := "" }] }))
    exampleResource { State := exampleState }
    { State := some exampleState, Diagnostics := [] }
    { ID := "12345", Name := "example.com", Type_ := "A", Content := "192.0.2.1",
      TTL := "600", Prio := "0", Notes := "" }
    (by decide) rfl rfl

/-- C10. For every domain `d` and full name `n` with `n ≠ d` that ends with
`"." + d`, the normalised name `r` is `n` with that one suffix removed:
`r + "." + d = n`; and when `Read`, handed a response without errors,
retrieves a record with such a full name for the tracked domain `d`, the name
it stores is that `r`. -/
theorem C10_subdomain_suffix_is_stripped (w : World) (r : DNSRecordResource)
    (req : ReadRequest) (resp : ReadResponse) (record : DNSRecord)
    (hclean : resp.Diagnostics.HasError = false)
    (hget : r.client.GetDNSRecord w req.State.Domain.ValueString req.State.ID.ValueString
      = Except.ok record)
    (hne : record.Name ≠ req.State.Domain.ValueString)
    (hsuf : strings.HasSuffix record.Name ("." ++ req.State.Domain.ValueString) = true) :
    DNSRecordResource.toRelative req.State.Domain.ValueString record.Name
        ++ "." ++ req.State.Domain.ValueString = record.Name ∧
    (DNSRecordResource.Read w r req resp).State.map DNSRecordResourceModel.Name
      = some (types.StringValue
          (DNSRecordResource.toRelative req.State.Domain.ValueString record.Name)) := by
  refine ⟨toRelative_of_suffix _ _ hne hsuf, ?_⟩
  rw [Read_of_ok w r req resp record hclean hget]
  rfl

/-- C10 at a concrete input: the record retrieved for `example.com/12345` is
named `www.example.com`, and `www` is stored. -/
theorem C10_subdomain_suffix_is_stripped_witness :
    "www" ++ "." ++ "example.com" = "www.example.com" ∧
    (DNSRecordResource.Read
        (World.answering 200 "status SUCCESS, one record"
          (Except.ok
            { Status := "SUCCESS", Message := "",
              Records := [{ ID := "12345", Name := "www.example.com", Type_ := "A",
                            Content := "192.0.2.1", TTL := "600", Prio := "0",
                            Notes := "" }] }))
        exampleResource { State := exampleState }
        { State := some exampleState, Diagnostics := [] }).State.map
          DNSRecordResourceModel.Name
      = some (types.StringValue "www") :=
  C10_subdomain_suffix_is_stripped
    (World.answering 200 "status SUCCESS, one record"
      (Except.ok
        { Status := "SUCCESS", Message := "",
          Records := [{ ID := "12345", Name := "www.example.com", Type_ := "A",
                        Content := "192.0.2.1", TTL := "600", Prio := "0",
                        Notes := "" }] }))
    exampleResource { State := exampleState }
    { State := some exampleState, Diagnostics := [] }
    { ID := "12345", Name := "www.example.com", Type_ := "A", Content := "192.0.2.1",
      TTL := "600", Prio := "0", Notes := "" }
    (by decide) rfl (by decide) (by decide)

/-- C11. For every domain `d` and full name `n` that neither equals `d` nor
ends with `"." + d`, `toRelative(d, n) = n`; and when `Read`, handed a
response without errors, retrieves a record with such a full name for the
tracked domain, it stores that name unchanged and adds no diagnostic. -/
theorem C11_foreign_name_is_kept (w : World) (r : DNSRecordResource)
    (req : ReadRequest) (resp : ReadResponse) (record : DNSRecord)
    (hclean : resp.Diagnostics.HasError = false)
    (hget : r.client.GetDNSRecord w req.State.Domain.ValueString req.State.ID.ValueString
      = Except.ok record)
    (hne : record.Name ≠ req.State.Domain.ValueString)
    (hsuf : strings.HasSuffix record.Name ("." ++ req.State.Domain.ValueString) = false) :
    DNSRecordResource.toRelative req.State.Domain.ValueString record.Name = record.Name ∧
    (DNSRecordResource.Read w r req resp).State.map DNSRecordResourceModel.Name
      = some (types.StringValue record.Name) ∧
    (DNSRecordResource.Read w r req resp).Diagnostics = resp.Diagnostics := by
  have hrel : DNSRecordResource.toRelative req.State.Domain.ValueString record.Name
      = record.Name := by
    unfold DNSRecordResource.toRelative
    rw [if_neg hne, hsuf]
    rfl
  rw [Read_of_ok w r req resp record hclean hget, hrel]
  exact ⟨rfl, rfl, rfl⟩

/-- C11 at a concrete input: the record retrieved for `example.com/12345` is
named `other.org`, and `other.org` is stored. -/
theorem C11_foreign_name_is_kept_witness :
    DNSRecordResource.toRelative "example.com" "other.org" = "other.org" ∧
    (DNSRecordResource.Read
        (World.answering 200 "status SUCCESS, one record"
          (Except.ok
            { Status := "SUCCESS", Message := "",
              Records := [{ ID := "12345", Name := "other.org", Type_ := "A",
                            Content := "192.0.2.1", TTL := "600", Prio := "0",
                            Notes := "" }] }))
        exampleResource { State := exampleState }
        { State := some exampleState, Diagnostics := [] }).State.map
          DNSRecordResourceModel.Name
      = some (types.StringValue "other.org") ∧
    (DNSRecordResource.Read
        (World.answering 200 "status SUCCESS, one record"
          (Except.ok
            { Status := "SUCCESS", Message := "",
              Records := [{ ID := "12345", Name := "other.org", Type_ := "A",
                            Content := "192.0.2.1", TTL := "600", Prio := "0",
                            Notes := "" }] }))
        exampleResource { State := exampleState }
        { State := some exampleState, Diagnostics := [] }).Diagnostics = [] :=
  C11_foreign_name_is_kept
    (World.answering 200 "status SUCCESS, one record"
      (Except.ok
        { Status := "SUCCESS", Message := "",
          Records := [{ ID := "12345", Name := "other.org", Type_ := "A",
                        Content := "192.0.2.1", TTL := "600", Prio := "0",
                        Notes := "" }] }))
    exampleResource { State := exampleState }
    { State := some exampleState, Diagnostics := [] }
    { ID := "12345", Name := "other.org", Type_ := "A", Content := "192.0.2.1",
      TTL := "600", Prio := "0", Notes := "" }
    (by decide) rfl (by decide) (by decide)

/-! ## Nameserver reconciler -/

namespace sort

theorem not_Less_iff (a b : String) : ¬ Less b a ↔ a ≤ b := by
  unfold Less
  rw [String.le_iff_toList_le, ← not_lt]
  rfl

theorem Strings_eq (x : List String) :
    Strings x = x.insertionSort (fun a b => a ≤ b) := by
  unfold Strings
  induction x with
  | nil => rfl
  | cons a l ih =>
    rw [List.insertionSort, List.insertionSort, ih]
    generalize List.insertionSort (fun a b => a ≤ b) l = t
    induction t with
    | nil => rfl
    | cons b t iht =>
      by_cases hab : a ≤ b
      · rw [List.orderedInsert, List.orderedInsert, if_pos hab,
          if_pos ((not_Less_iff a b).2 hab)]
      · rw [List.orderedInsert, List.orderedInsert, if_neg hab,
          if_neg (fun h => hab ((not_Less_iff a b).1 h)), iht]

theorem Strings_sorted (x : List String) :
    List.Sorted (fun a b : String => a ≤ b) (Strings x) := by
  rw [Strings_eq]
  exact List.sorted_insertionSort _ x

theorem Strings_perm (x : List String) : (Strings x).Perm x := by
  rw [Strings_eq]
  exact List.perm_insertionSort _ x

theorem Strings_eq_of_perm (x y : List String) (h : x.Perm y) : Strings x = Strings y :=
  List.eq_of_perm_of_sorted
    (((Strings_perm x).trans h).trans (Strings_perm y).symm)
    (Strings_sorted x) (Strings_sorted y)

theorem Strings_idem (x : List String) : Strings (Strings x) = Strings x := by
  rw [Strings_eq (Strings x)]
  exact List.Sorted.insertionSort_eq (Strings_sorted x)

theorem Strings_values :
    Strings ["b.ns.example.com", "a.ns.example.com"]
      = ["a.ns.example.com", "b.ns.example.com"] ∧
    Strings ["a.ns.example.com", "b.ns.example.com"]
      = ["a.ns.example.com", "b.ns.example.com"] ∧
    Strings ["ns2", "ns10", "Ns1", "ns1"] = ["Ns1", "ns1", "ns10", "ns2"] := by
  decide

end sort

theorem NSCreate_eq (g : NameServerGateway) (r : DomainNameServersResource)
    (req : NSPlanRequest) (resp : NSResponse)
    (hclean : resp.Diagnostics.HasError = false) :
    DomainNameServersResource.Create g r req resp =
      match g.UpdateNameServers r.client req.Plan.Domain.ValueString
          (sort.Strings (req.Plan.NameServers.map TString.ValueString)) with
      | Except.error err =>
        { State := resp.State,
          Diagnostics :=
            resp.Diagnostics.AddError "Client Error"
              ("Unable to update name servers: " ++ err) }
      | Except.ok _ =>
        { State := some { req.Plan with ID := req.Plan.Domain },
          Diagnostics := resp.Diagnostics } := by
  unfold DomainNameServersResource.Create
  simp only [hclean, Bool.false_eq_true, if_false]

theorem NSUpdate_eq (g : NameServerGateway) (r : DomainNameServersResource)
    (req : NSPlanRequest) (resp : NSResponse)
    (hclean : resp.Diagnostics.HasError = false) :
    DomainNameServersResource.Update g r req resp =
      match g.UpdateNameServers r.client req.Plan.Domain.ValueString
          (sort.Strings (req.Plan.NameServers.map TString.ValueString)) with
      | Except.error err =>
        { State := resp.State,
          Diagnostics :=
            resp.Diagnostics.AddError "Client Error"
              ("Unable to update name servers: " ++ err) }
      | Except.ok _ =>
        { State := some req.Plan, Diagnostics := resp.Diagnostics } := by
  unfold DomainNameServersResource.Update
  simp only [hclean, Bool.false_eq_true, if_false]

set_option maxRecDepth 8192 in
theorem NSCreate_values :
    DomainNameServersResource.Create NameServerGateway.echoing exampleNSResource
        { Plan := { ID := TString.unknown, Domain := TString.value "example.com",
                    NameServers := [TString.value "b.ns.example.com",
                                    TString.value "a.ns.example.com"] } }
        { State := none, Diagnostics := [] }
      = { State := none,
          Diagnostics :=
            [{ Severity := Severity.error, Summary := "Client Error",
               Detail := "Unable to update name servers: example.com <a.ns.example.com><b.ns.example.com>" }] } := by
  decide

theorem map_value_ValueString (elems : List TString)
    (hknown : ∀ e ∈ elems, ∃ s : String, e = TString.value s) :
    (elems.map TString.ValueString).map TString.value = elems := by
  induction elems with
  | nil => rfl
  | cons e es ih =>
    obtain ⟨s, rfl⟩ := hknown e (List.mem_cons_self _ _)
    rw [List.map_cons, List.map_cons, ih (fun x hx => hknown x (List.mem_cons_of_mem _ hx))]
    rfl

/-- C12 (counterexample). The desired set `{null, ""}` of `example.com` has two
distinct elements. `Create`, handed a response without errors, gives the
gateway the domain `example.com` and the list `["", ""]` (the gateway used
here answers with what it was given): the empty string is there twice, and the
list is not a permutation of the set's elements. -/
theorem C12_null_element_is_sent_as_empty_string :
    [TString.null, TString.value ""].Nodup ∧
    DomainNameServersResource.Create NameServerGateway.echoing exampleNSResource
        { Plan := { ID := TString.unknown, Domain := TString.value "example.com",
                    NameServers := [TString.null, TString.value ""] } }
        { State := none, Diagnostics := [] }
      = { State := none,
          Diagnostics :=
            [{ Severity := Severity.error, Summary := "Client Error",
               Detail := "Unable to update name servers: example.com <><>" }] } ∧
    NameServerGateway.echoing.UpdateNameServers exampleNSResource.client "example.com" ["", ""]
      = Except.error "example.com <><>" ∧
    ¬ (["", ""] : List String).Nodup ∧
    ¬ ((["", ""] : List String).map TString.value).Perm [TString.null, TString.value ""] := by
  refine ⟨by decide, by decide, rfl, by decide, ?_⟩
  intro hperm
  have hmem : TString.null ∈ (["", ""] : List String).map TString.value :=
    hperm.symm.subset (List.mem_cons_self _ _)
  simp at hmem

/-- C12 (amended). For every desired nameserver set there is one list, sorted
in ascending lexicographic order (`≤` on strings, see `sort.not_Less_iff`) and
a permutation of the string values of the set's elements (a null or unknown
element counting as the empty string), such that for every gateway `Create`
and `Update`, handed a response without errors, call `UpdateNameServers` on
the plan's domain and that list and act on its answer. When every element of
the set is a known string, the list is a permutation of the set's elements
themselves. -/
theorem C12_sent_list_is_sorted_permutation (r : DomainNameServersResource)
    (req : NSPlanRequest) :
    ∃ sent : List String,
      List.Sorted (fun a b : String => a ≤ b) sent ∧
      sent.Perm (req.Plan.NameServers.map TString.ValueString) ∧
      ((∀ e ∈ req.Plan.NameServers, ∃ s : String, e = TString.value s) →
        (sent.map TString.value).Perm req.Plan.NameServers) ∧
      (∀ (g : NameServerGateway) (resp : NSResponse),
        resp.Diagnostics.HasError = false →
        DomainNameServersResource.Create g r req resp =
          match g.UpdateNameServers r.client req.Plan.Domain.ValueString sent with
          | Except.error err =>
            { State := resp.State,
              Diagnostics :=
                resp.Diagnostics.AddError "Client Error"
                  ("Unable to update name servers: " ++ err) }
          | Except.ok _ =>
            { State := some { req.Plan with ID := req.Plan.Domain },
              Diagnostics := resp.Diagnostics }) ∧
      (∀ (g : NameServerGateway) (resp : NSResponse),
        resp.Diagnostics.HasError = false →
        DomainNameServersResource.Update g r req resp =
          match g.UpdateNameServers r.client req.Plan.Domain.ValueString sent with
          | Except.error err =>
            { State := resp.State,
              Diagnostics :=
                resp.Diagnostics.AddError "Client Error"
                  ("Unable to update name servers: " ++ err) }
          | Except.ok _ =>
            { State := some req.Plan, Diagnostics := resp.Diagnostics }) := by
  refine ⟨sort.Strings (req.Plan.NameServers.map TString.ValueString),
    sort.Strings_sorted _, sort.Strings_perm _, ?_,
    fun g resp hclean => NSCreate_eq g r req resp hclean,
    fun g resp hclean => NSUpdate_eq g r req resp hclean⟩
  intro hknown
  have hmap := ((sort.Strings_perm (req.Plan.NameServers.map TString.ValueString)).map
    TString.value)
  rw [map_value_ValueString _ hknown] at hmap
  exact hmap

/-- C12 (amended) at a concrete input: the set `{b.ns.example.com,
a.ns.example.com}` of `example.com` reaches the gateway (which answers with
what it was given) as `a.ns.example.com`, `b.ns.example.com`. -/
theorem C12_sent_list_is_sorted_permutation_witness :
    DomainNameServersResource.Create NameServerGateway.echoing exampleNSResource
        { Plan := { ID := TString.unknown, Domain := TString.value "example.com",
                    NameServers := [TString.value "b.ns.example.com",
                                    TString.value "a.ns.example.com"] } }
        { State := none, Diagnostics := [] }
      = { State := none,
          Diagnostics :=
            [{ Severity := Severity.error, Summary := "Client Error",
               Detail := "Unable to update name servers: example.com <a.ns.example.com><b.ns.example.com>" }] } := by
  obtain ⟨sent, hsorted, hperm, _, hcreate, _⟩ :=
    C12_sent_list_is_sorted_permutation exampleNSResource
      { Plan := { ID := TString.unknown, Domain := TString.value "example.com",
                  NameServers := [TString.value "b.ns.example.com",
                                  TString.value "a.ns.example.com"] } }
  have hab : ("a.ns.example.com" : String) ≤ "b.ns.example.com" :=
    (sort.not_Less_iff _ _).1 (by decide)
  have hsent : sent = ["a.ns.example.com", "b.ns.example.com"] :=
    List.eq_of_perm_of_sorted (hperm.trans (List.Perm.swap _ _ [])) hsorted
      (List.sorted_cons.2
        ⟨fun b hb => by rw [List.mem_singleton] at hb; rw [hb]; exact hab,
         List.sorted_singleton _⟩)
  rw [hcreate NameServerGateway.echoing _ (by decide), hsent]
  rfl

/-- C13. When the nameserver sets of two plans are enumerations of the same
set (permutations of each other), there is one list, left unchanged by
sorting it again, such that for every gateway `Create` and `Update`, handed a
response without errors, call `UpdateNameServers` with that same list for
either plan (each on its own plan's domain) and act on its answer. -/
theorem C13_sent_list_ignores_order_and_is_stable
    (r r' : DomainNameServersResource) (req req' : NSPlanRequest)
    (hperm : req.Plan.NameServers.Perm req'.Plan.NameServers) :
    ∃ sent : List String,
      sort.Strings sent = sent ∧
      (∀ (g : NameServerGateway) (resp : NSResponse),
        resp.Diagnostics.HasError = false →
        DomainNameServersResource.Create g r req resp =
          match g.UpdateNameServers r.client req.Plan.Domain.ValueString sent with
          | Except.error err =>
            { State := resp.State,
              Diagnostics :=
                resp.Diagnostics.AddError "Client Error"
                  ("Unable to update name servers: " ++ err) }
          | Except.ok _ =>
            { State := some { req.Plan with ID := req.Plan.Domain },
              Diagnostics := resp.Diagnostics }) ∧
      (∀ (g : NameServerGateway) (resp : NSResponse),
        resp.Diagnostics.HasError = false →
        DomainNameServersResource.Create g r' req' resp =
          match g.UpdateNameServers r'.client req'.Plan.Domain.ValueString sent with
          | Except.error err =>
            { State := resp.State,
              Diagnostics :=
                resp.Diagnostics.AddError "Client Error"
                  ("Unable to update name servers: " ++ err) }
          | Except.ok _ =>
            { State := some { req'.Plan with ID := req'.Plan.Domain },
              Diagnostics := resp.Diagnostics }) ∧
      (∀ (g : NameServerGateway) (resp : NSResponse),
        resp.Diagnostics.HasError = false →
        DomainNameServersResource.Update g r req resp =
          match g.UpdateNameServers r.client req.Plan.Domain.ValueString sent with
          | Except.error err =>
            { State := resp.State,
              Diagnostics :=
                resp.Diagnostics.AddError "Client Error"
                  ("Unable to update name servers: " ++ err) }
          | Except.ok _ =>
            { State := some req.Plan, Diagnostics := resp.Diagnostics }) ∧
      (∀ (g : NameServerGateway) (resp : NSResponse),
        resp.Diagnostics.HasError = false →
        DomainNameServersResource.Update g r' req' resp =
          match g.UpdateNameServers r'.client req'.Plan.Domain.ValueString sent with
          | Except.error err =>
            { State := resp.State,
              Diagnostics :=
                resp.Diagnostics.AddError "Client Error"
                  ("Unable to update name servers: " ++ err) }
          | Except.ok _ =>
            { State := some req'.Plan, Diagnostics := resp.Diagnostics }) := by
  have hsame : sort.Strings (req'.Plan.NameServers.map TString.ValueString)
      = sort.Strings (req.Plan.NameServers.map TString.ValueString) :=
    sort.Strings_eq_of_perm _ _ (hperm.symm.map _)
  refine ⟨sort.Strings (req.Plan.NameServers.map TString.ValueString),
    sort.Strings_idem _,
    fun g resp hclean => NSCreate_eq g r req resp hclean, ?_,
    fun g resp hclean => NSUpdate_eq g r req resp hclean, ?_⟩
  · intro g resp hclean
    rw [← hsame]
    exact NSCreate_eq g r' req' resp hclean
  · intro g resp hclean
    rw [← hsame]
    exact NSUpdate_eq g r' req' resp hclean

/-- C13 at a concrete input: for the plans `{b, a}` and `{a, b}` of
`example.com`, `Create` has the same outcome with the gateway that answers
with what it was given. -/
theorem C13_sent_list_ignores_order_and_is_stable_witness :
    DomainNameServersResource.Create NameServerGateway.echoing exampleNSResource
        { Plan := { ID := TString.unknown, Domain := TString.value "example.com",
                    NameServers := [TString.value "b.ns.example.com",
                                    TString.value "a.ns.example.com"] } }
        { State := none, Diagnostics := [] }
      = DomainNameServersResource.Create NameServerGateway.echoing exampleNSResource
          { Plan := { ID := TString.unknown, Domain := TString.value "example.com",
                      NameServers := [TString.value "a.ns.example.com",
                                      TString.value "b.ns.example.com"] } }
          { State := none, Diagnostics := [] } := by
  obtain ⟨sent, _, hfirst, hsecond, _, _⟩ :=
    C13_sent_list_ignores_order_and_is_stable exampleNSResource exampleNSResource
      { Plan := { ID := TString.unknown, Domain := TString.value "example.com",
                  NameServers := [TString.value "b.ns.example.com",
                                  TString.value "a.ns.example.com"] } }
      { Plan := { ID := TString.unknown, Domain := TString.value "example.com",
                  NameServers := [TString.value "a.ns.example.com",
                                  TString.value "b.ns.example.com"] } }
      (List.Perm.swap _ _ [])
  rw [hfirst NameServerGateway.echoing _ (by decide),
    hsecond NameServerGateway.echoing _ (by decide)]
  rfl

/-- C14. For every prior tracked state (any domain, any previous nameserver
set) and every gateway, `Delete`, handed a response without errors, calls
`UpdateNameServers` on that state's domain and the list
`[curitiba.ns.porkbun.com, fortaleza.ns.porkbun.com, maceio.ns.porkbun.com,
salvador.ns.porkbun.com]` and acts on its answer; the list has four elements,
all distinct, and the prior set does not occur in the call. -/
theorem C14_delete_resets_to_defaults (g : NameServerGateway)
    (r : DomainNameServersResource) (req : NSDeleteRequest) (resp : NSResponse)
    (hclean : resp.Diagnostics.HasError = false) :
    DomainNameServersResource.Delete g r req resp =
      (match g.UpdateNameServers r.client req.State.Domain.ValueString
          [ "curitiba.ns.porkbun.com", "fortaleza.ns.porkbun.com",
            "maceio.ns.porkbun.com", "salvador.ns.porkbun.com" ] with
      | Except.error err =>
        { State := resp.State,
          Diagnostics :=
            resp.Diagnostics.AddError "Client Error"
              ("Unable to reset name servers: " ++ err) }
      | Except.ok _ => resp) ∧
    ([ "curitiba.ns.porkbun.com", "fortaleza.ns.porkbun.com",
       "maceio.ns.porkbun.com", "salvador.ns.porkbun.com" ] : List String).length = 4 ∧
    ([ "curitiba.ns.porkbun.com", "fortaleza.ns.porkbun.com",
       "maceio.ns.porkbun.com", "salvador.ns.porkbun.com" ] : List String).Nodup := by
  refine ⟨?_, by decide, by decide⟩
  unfold DomainNameServersResource.Delete
  simp only [hclean, Bool.false_eq_true, if_false]

set_option maxRecDepth 8192 in
/-- C14 at a concrete input: the tracked nameserver set of `example.com` is
`{ns1.example.net}`; the gateway that answers with what it was given received
`example.com` and the four default hostnames. -/
theorem C14_delete_resets_to_defaults_witness :
    DomainNameServersResource.Delete NameServerGateway.echoing exampleNSResource
        { State := { ID := TString.value "example.com", Domain := TString.value "example.com",
                     NameServers := [TString.value "ns1.example.net"] } }
        { State := some { ID := TString.value "example.com",
                          Domain := TString.value "example.com",
                          NameServers := [TString.value "ns1.example.net"] },
          Diagnostics := [] }
      = { State := some { ID := TString.value "example.com",
                          Domain := TString.value "example.com",
                          NameServers := [TString.value "ns1.example.net"] },
          Diagnostics :=
            [{ Severity := Severity.error, Summary := "Client Error",
               Detail := "Unable to reset name servers: example.com <curitiba.ns.porkbun.com><fortaleza.ns.porkbun.com><maceio.ns.porkbun.com><salvador.ns.porkbun.com>" }] } :=
  (C14_delete_resets_to_defaults NameServerGateway.echoing exampleNSResource
    { State := { ID := TString.value "example.com", Domain := TString.value "example.com",
                 NameServers := [TString.value "ns1.example.net"] } }
    { State := some { ID := TString.value "example.com",
                      Domain := TString.value "example.com",
                      NameServers := [TString.value "ns1.example.net"] },
      Diagnostics := [] }
    (by decide)).1

/-! ## Remote API gateway -/

theorem Ping_of_decoded (w : World) (c : Client) (body : String) (resp : APIResponse)
    (hbody : c.pingBody w = Except.ok body) (hdec : w.UnmarshalAPI body = Except.ok resp) :
    c.Ping w =
      if resp.Status ≠ "SUCCESS" then Except.error ("API ping failed: " ++ resp.Message)
      else Except.ok () := by
  unfold Client.pingBody at hbody
  unfold Client.Ping
  simp only [hbody, hdec]

theorem CreateDNSRecord_of_decoded (w : World) (c : Client) (domain : String)
    (record : CreateDNSRecordRequest) (body : String) (resp : CreateDNSRecordResponse)
    (hbody : c.createBody w domain record = Except.ok body)
    (hdec : w.UnmarshalCreate body = Except.ok resp) :
    c.CreateDNSRecord w domain record =
      if resp.Status ≠ "SUCCESS" then
        Except.error ("failed to create DNS record: " ++ resp.Message)
      else Except.ok (toString resp.ID) := by
  unfold Client.createBody at hbody
  unfold Client.CreateDNSRecord
  simp only [hbody, hdec]

theorem EditDNSRecord_of_decoded (w : World) (c : Client) (domain recordID : String)
    (record : EditDNSRecordRequest) (body : String) (resp : APIResponse)
    (hbody : c.editBody w domain recordID record = Except.ok body)
    (hdec : w.UnmarshalAPI body = Except.ok resp) :
    c.EditDNSRecord w domain recordID record =
      if resp.Status ≠ "SUCCESS" then
        Except.error ("failed to edit DNS record: " ++ resp.Message)
      else Except.ok () := by
  unfold Client.editBody at hbody
  unfold Client.EditDNSRecord
  simp only [hbody, hdec]

theorem DeleteDNSRecord_of_decoded (w : World) (c : Client) (domain recordID : String)
    (body : String) (resp : APIResponse)
    (hbody : c.deleteBody w domain recordID = Except.ok body)
    (hdec : w.UnmarshalAPI body = Except.ok resp) :
    c.DeleteDNSRecord w domain recordID =
      if resp.Status ≠ "SUCCESS" then
        Except.error ("failed to delete DNS record: " ++ resp.Message)
      else Except.ok () := by
  unfold Client.deleteBody at hbody
  unfold Client.DeleteDNSRecord
  simp only [hbody, hdec]

theorem GetDNSRecord_of_decoded (w : World) (c : Client) (domain recordID : String)
    (body : String) (resp : RetrieveDNSRecordsResponse)
    (hbody : c.retrieveBody w domain recordID = Except.ok body)
    (hdec : w.UnmarshalRetrieve body = Except.ok resp) :
    c.GetDNSRecord w domain recordID =
      if resp.Status ≠ "SUCCESS" then
        Except.error ("failed to retrieve DNS record: " ++ resp.Message)
      else
        match resp.Records with
        | [] => Except.error "DNS record not found"
        | record :: _ => Except.ok record := by
  rw [GetDNSRecord_eq, hbody]
  simp only [hdec]

theorem status_split (status : String) (text : String) (res : Except String Unit)
    (h : res = if status ≠ "SUCCESS" then Except.error text else Except.ok ()) :
    (status ≠ "SUCCESS" → res = Except.error text) ∧
    (res = Except.ok () ↔ status = "SUCCESS") := by
  by_cases hs : status = "SUCCESS"
  · rw [if_neg (not_not.2 hs)] at h
    exact ⟨fun hne => absurd hs hne, fun _ => hs, fun _ => h⟩
  · rw [if_pos hs] at h
    refine ⟨fun _ => h, fun hok => ?_, fun heq => absurd heq hs⟩
    rw [h] at hok
    cases hok

/-- C15. For each of `Ping`, `CreateDNSRecord`, `GetDNSRecord`,
`EditDNSRecord` and `DeleteDNSRecord`, and every response body that was
received with transport status 200 and decoded: when the decoded status is not
`SUCCESS`, the operation fails with its own prefix followed by the remote
message, unaltered; and `Ping`, `EditDNSRecord` and `DeleteDNSRecord` succeed
exactly when the status is `SUCCESS`. -/
theorem C15_remote_failure_carries_message (w : World) (c : Client)
    (domain recordID : String) (record : CreateDNSRecordRequest)
    (erecord : EditDNSRecordRequest) :
    (∀ body resp, c.pingBody w = Except.ok body → w.UnmarshalAPI body = Except.ok resp →
      (resp.Status ≠ "SUCCESS" →
        c.Ping w = Except.error ("API ping failed: " ++ resp.Message)) ∧
      (c.Ping w = Except.ok () ↔ resp.Status = "SUCCESS")) ∧
    (∀ body resp, c.createBody w domain record = Except.ok body →
      w.UnmarshalCreate body = Except.ok resp →
      resp.Status ≠ "SUCCESS" →
        c.CreateDNSRecord w domain record
          = Except.error ("failed to create DNS record: " ++ resp.Message)) ∧
    (∀ body resp, c.retrieveBody w domain recordID = Except.ok body →
      w.UnmarshalRetrieve body = Except.ok resp →
      resp.Status ≠ "SUCCESS" →
        c.GetDNSRecord w domain recordID
          = Except.error ("failed to retrieve DNS record: " ++ resp.Message)) ∧
    (∀ body resp, c.editBody w domain recordID erecord = Except.ok body →
      w.UnmarshalAPI body = Except.ok resp →
      (resp.Status ≠ "SUCCESS" →
        c.EditDNSRecord w domain recordID erecord
          = Except.error ("failed to edit DNS record: " ++ resp.Message)) ∧
      (c.EditDNSRecord w domain recordID erecord = Except.ok () ↔ resp.Status = "SUCCESS")) ∧
    (∀ body resp, c.deleteBody w domain recordID = Except.ok body →
      w.UnmarshalAPI body = Except.ok resp →
      (resp.Status ≠ "SUCCESS" →
        c.DeleteDNSRecord w domain recordID
          = Except.error ("failed to delete DNS record: " ++ resp.Message)) ∧
      (c.DeleteDNSRecord w domain recordID = Except.ok () ↔ resp.Status = "SUCCESS")) := by
  refine ⟨?_, ?_, ?_, ?_, ?_⟩
  · intro body resp hbody hdec
    exact status_split _ _ _ (Ping_of_decoded w c body resp hbody hdec)
  · intro body resp hbody hdec hne
    rw [CreateDNSRecord_of_decoded w c domain record body resp hbody hdec, if_pos hne]
  · intro body resp hbody hdec hne
    rw [GetDNSRecord_of_decoded w c domain recordID body resp hbody hdec, if_pos hne]
  · intro body resp hbody hdec
    exact status_split _ _ _ (EditDNSRecord_of_decoded w c domain recordID erecord body resp
      hbody hdec)
  · intro body resp hbody hdec
    exact status_split _ _ _ (DeleteDNSRecord_of_decoded w c domain recordID body resp
      hbody hdec)

/-- C15 at a concrete input: every request is answered with status `ERROR`
and the message `Invalid API key. (002)`. -/
theorem C15_remote_failure_carries_message_witness :
    exampleResource.client.Ping
        (World.answering 200 "status ERROR"
          (Except.ok { Status := "ERROR", Message := "Invalid API key. (002)",
                       Records := [] }))
      = Except.error "API ping failed: Invalid API key. (002)" ∧
    exampleResource.client.DeleteDNSRecord
        (World.answering 200 "status ERROR"
          (Except.ok { Status := "ERROR", Message := "Invalid API key. (002)",
                       Records := [] }))
        "example.com" "12345"
      = Except.error "failed to delete DNS record: Invalid API key. (002)" :=
  ⟨((C15_remote_failure_carries_message
      (World.answering 200 "status ERROR"
        (Except.ok { Status := "ERROR", Message := "Invalid API key. (002)",
                     Records := [] }))
      exampleResource.client "example.com" "12345"
      { SecretAPIKey := "", APIKey := "", Name := "www", Type_ := "A",
        Content := "192.0.2.1", TTL := "600", Prio := "0", Notes := "" }
      { SecretAPIKey := "", APIKey := "", Name := "www", Type_ := "A",
        Content := "192.0.2.1", TTL := "600", Prio := "0", Notes := "" }).1
      "status ERROR" { Status := "ERROR", Message := "Invalid API key. (002)" }
      rfl rfl).1 (by decide),
   ((C15_remote_failure_carries_message
      (World.answering 200 "status ERROR"
        (Except.ok { Status := "ERROR", Message := "Invalid API key. (002)",
                     Records := [] }))
      exampleResource.client "example.com" "12345"
      { SecretAPIKey := "", APIKey := "", Name := "www", Type_ := "A",
        Content := "192.0.2.1", TTL := "600", Prio := "0", Notes := "" }
      { SecretAPIKey := "", APIKey := "", Name := "www", Type_ := "A",
        Content := "192.0.2.1", TTL := "600", Prio := "0", Notes := "" }).2.2.2.2
      "status ERROR" { Status := "ERROR", Message := "Invalid API key. (002)" }
      rfl rfl).1 (by decide)⟩

/-- C16. For every retrieval response that was received with transport status
200 and decoded with status `SUCCESS`: `GetDNSRecord` fails with
`DNS record not found` exactly when the records list is empty, and otherwise
returns the first record of the list. -/
theorem C16_not_found_iff_no_records (w : World) (c : Client) (domain recordID : String)
    (body : String) (resp : RetrieveDNSRecordsResponse)
    (hbody : c.retrieveBody w domain recordID = Except.ok body)
    (hdec : w.UnmarshalRetrieve body = Except.ok resp)
    (hstatus : resp.Status = "SUCCESS") :
    (c.GetDNSRecord w domain recordID = Except.error "DNS record not found"
      ↔ resp.Records = []) ∧
    (∀ record rest, resp.Records = record :: rest →
      c.GetDNSRecord w domain recordID = Except.ok record) := by
  have hget := GetDNSRecord_of_decoded w c domain recordID body resp hbody hdec
  rw [if_neg (not_not.2 hstatus)] at hget
  rw [hget]
  constructor
  · cases hrecs : resp.Records with
    | nil => simp
    | cons record rest => simp
  · intro record rest hrecs
    rw [hrecs]

/-- C16 at a concrete input: a `SUCCESS` response with two records yields the
first one. -/
theorem C16_not_found_iff_no_records_witness :
    exampleResource.client.GetDNSRecord
        (World.answering 200 "status SUCCESS, two records"
          (Except.ok
            { Status := "SUCCESS", Message := "",
              Records := [{ ID := "12345", Name := "www.example.com", Type_ := "A",
                            Content := "192.0.2.1", TTL := "600", Prio := "0",
                            Notes := "" },
                          { ID := "67890", Name := "example.com", Type_ := "MX",
                            Content := "mail.example.com", TTL := "600", Prio := "10",
                            Notes := "" }] }))
        "example.com" "12345"
      = Except.ok { ID := "12345", Name := "www.example.com", Type_ := "A",
                    Content := "192.0.2.1", TTL := "600", Prio := "0", Notes := "" } :=
  (C16_not_found_iff_no_records
    (World.answering 200 "status SUCCESS, two records"
      (Except.ok
        { Status := "SUCCESS", Message := "",
          Records := [{ ID := "12345", Name := "www.example.com", Type_ := "A",
                        Content := "192.0.2.1", TTL := "600", Prio := "0",
                        Notes := "" },
                      { ID := "67890", Name := "example.com", Type_ := "MX",
                        Content := "mail.example.com", TTL := "600", Prio := "10",
                        Notes := "" }] }))
    exampleResource.client "example.com" "12345" "status SUCCESS, two records"
    { Status := "SUCCESS", Message := "",
      Records := [{ ID := "12345", Name := "www.example.com", Type_ := "A",
                    Content := "192.0.2.1", TTL := "600", Prio := "0", Notes := "" },
                  { ID := "67890", Name := "example.com", Type_ := "MX",
                    Content := "mail.example.com", TTL := "600", Prio := "10",
                    Notes := "" }] }
    rfl rfl rfl).2 _ _ rfl

/-- C17. For every client and every request handed to `CreateDNSRecord` and
`EditDNSRecord`, there are an authentication payload, a create payload and an
edit payload, all three carrying the client's configured API key and secret
key, the latter two carrying the six record fields of the caller's request
unchanged, such that in every world each of the five gateway operations hands
exactly that payload to `doRequest` and decodes what comes back. The
credential fields of the caller's request occur nowhere in the payloads. -/
theorem C17_payload_carries_client_credentials (c : Client) (domain recordID : String)
    (record : CreateDNSRecordRequest) (erecord : EditDNSRecordRequest) :
    ∃ (auth : authRequest) (created : CreateDNSRecordRequest)
        (edited : EditDNSRecordRequest),
      (auth.APIKey = c.apiKey ∧ auth.SecretAPIKey = c.secretAPIKey) ∧
      (created.APIKey = c.apiKey ∧ created.SecretAPIKey = c.secretAPIKey ∧
        created.Name = record.Name ∧ created.Type_ = record.Type_ ∧
        created.Content = record.Content ∧ created.TTL = record.TTL ∧
        created.Prio = record.Prio ∧ created.Notes = record.Notes) ∧
      (edited.APIKey = c.apiKey ∧ edited.SecretAPIKey = c.secretAPIKey ∧
        edited.Name = erecord.Name ∧ edited.Type_ = erecord.Type_ ∧
        edited.Content = erecord.Content ∧ edited.TTL = erecord.TTL ∧
        edited.Prio = erecord.Prio ∧ edited.Notes = erecord.Notes) ∧
      ∀ w : World,
        (c.Ping w =
          match c.doRequest w "POST" "/ping" (some (Payload.auth auth)) with
          | Except.error err => Except.error err
          | Except.ok respBody =>
            match w.UnmarshalAPI respBody with
            | Except.error err => Except.error ("failed to parse response: " ++ err)
            | Except.ok resp =>
              if resp.Status ≠ "SUCCESS" then
                Except.error ("API ping failed: " ++ resp.Message)
              else Except.ok ()) ∧
        (c.CreateDNSRecord w domain record =
          match c.doRequest w "POST" ("/dns/create/" ++ domain)
              (some (Payload.create created)) with
          | Except.error err => Except.error err
          | Except.ok respBody =>
            match w.UnmarshalCreate respBody with
            | Except.error err => Except.error ("failed to parse response: " ++ err)
            | Except.ok resp =>
              if resp.Status ≠ "SUCCESS" then
                Except.error ("failed to create DNS record: " ++ resp.Message)
              else Except.ok (toString resp.ID)) ∧
        (c.GetDNSRecord w domain recordID =
          match c.doRequest w "POST" ("/dns/retrieve/" ++ domain ++ "/" ++ recordID)
              (some (Payload.auth auth)) with
          | Except.error err => Except.error err
          | Except.ok respBody =>
            match w.UnmarshalRetrieve respBody with
            | Except.error err => Except.error ("failed to parse response: " ++ err)
            | Except.ok resp =>
              if resp.Status ≠ "SUCCESS" then
                Except.error ("failed to retrieve DNS record: " ++ resp.Message)
              else
                match resp.Records with
                | [] => Except.error "DNS record not found"
                | first :: _ => Except.ok first) ∧
        (c.EditDNSRecord w domain recordID erecord =
          match c.doRequest w "POST" ("/dns/edit/" ++ domain ++ "/" ++ recordID)
              (some (Payload.edit edited)) with
          | Except.error err => Except.error err
          | Except.ok respBody =>
            match w.UnmarshalAPI respBody with
            | Except.error err => Except.error ("failed to parse response: " ++ err)
            | Except.ok resp =>
              if resp.Status ≠ "SUCCESS" then
                Except.error ("failed to edit DNS record: " ++ resp.Message)
              else Except.ok ()) ∧
        (c.DeleteDNSRecord w domain recordID =
          match c.doRequest w "POST" ("/dns/delete/" ++ domain ++ "/" ++ recordID)
              (some (Payload.auth auth)) with
          | Except.error err => Except.error err
          | Except.ok respBody =>
            match w.UnmarshalAPI respBody with
            | Except.error err => Except.error ("failed to parse response: " ++ err)
            | Except.ok resp =>
              if resp.Status ≠ "SUCCESS" then
                Except.error ("failed to delete DNS record: " ++ resp.Message)
              else Except.ok ()) := by
  refine ⟨{ SecretAPIKey := c.secretAPIKey, APIKey := c.apiKey },
    { record with SecretAPIKey := c.secretAPIKey, APIKey := c.apiKey },
    { erecord with SecretAPIKey := c.secretAPIKey, APIKey := c.apiKey },
    ⟨rfl, rfl⟩, ⟨rfl, rfl, rfl, rfl, rfl, rfl, rfl, rfl⟩,
    ⟨rfl, rfl, rfl, rfl, rfl, rfl, rfl, rfl⟩, fun w => ⟨rfl, rfl, ?_, rfl, rfl⟩⟩
  exact GetDNSRecord_eq w c domain recordID

/-! ## Record reconciler: `Create`, `Update` and the state that `Read` writes -/

/-- C18. For every planned record and a response handed in without errors: if
`CreateDNSRecord`, called with the plan's domain and the payload built from
the plan, returns the id `i`, `Create`
stores the plan with its id replaced by `i` and adds no diagnostic; if it
fails with `err`, `Create` adds the error `Client Error` carrying `err` and
leaves the state as the framework handed it in (null: no state is stored). -/
theorem C18_create_stores_plan_with_id (w : World) (r : DNSRecordResource)
    (req : CreateRequest) (resp : CreateResponse)
    (hclean : resp.Diagnostics.HasError = false) :
    (∀ i : String,
      r.client.CreateDNSRecord w req.Plan.Domain.ValueString
          { SecretAPIKey := "", APIKey := "",
            Name := req.Plan.Name.ValueString, Type_ := req.Plan.Type_.ValueString,
            Content := req.Plan.Content.ValueString, TTL := req.Plan.TTL.ValueString,
            Prio := req.Plan.Prio.ValueString, Notes := req.Plan.Notes.ValueString }
        = Except.ok i →
      DNSRecordResource.Create w r req resp
        = { State := some { req.Plan with ID := TString.value i },
            Diagnostics := resp.Diagnostics }) ∧
    (∀ err : String,
      r.client.CreateDNSRecord w req.Plan.Domain.ValueString
          { SecretAPIKey := "", APIKey := "",
            Name := req.Plan.Name.ValueString, Type_ := req.Plan.Type_.ValueString,
            Content := req.Plan.Content.ValueString, TTL := req.Plan.TTL.ValueString,
            Prio := req.Plan.Prio.ValueString, Notes := req.Plan.Notes.ValueString }
        = Except.error err →
      DNSRecordResource.Create w r req resp
        = { State := resp.State,
            Diagnostics :=
              resp.Diagnostics ++
                [{ Severity := Severity.error, Summary := "Client Error",
                   Detail := "Unable to create DNS record: " ++ err }] }) := by
  constructor
  · intro i hcreate
    unfold DNSRecordResource.Create
    simp [hclean, hcreate, State.Set, Diagnostics.Append, types.StringValue]
  · intro err hcreate
    unfold DNSRecordResource.Create
    simp [hclean, hcreate, Diagnostics.AddError]

/-- C18 at concrete inputs: a create answered with `SUCCESS` and id `987`
stores the plan with id `987`; a create answered with transport status 500
reports the error and stores nothing. -/
theorem C18_create_stores_plan_with_id_witness :
    DNSRecordResource.Create (World.creating 987) exampleResource
        { Plan := { exampleState with ID := TString.unknown } }
        { State := none, Diagnostics := [] }
      = { State := some { exampleState with ID := TString.value "987" },
          Diagnostics := [] } ∧
    DNSRecordResource.Create
        (World.answering 500 "Internal Server Error" (Except.error "unexpected end"))
        exampleResource
        { Plan := { exampleState with ID := TString.unknown } }
        { State := none, Diagnostics := [] }
      = { State := none,
          Diagnostics :=
            [{ Severity := Severity.error, Summary := "Client Error",
               Detail := "Unable to create DNS record: API returned status 500: Internal Server Error" }] } :=
  ⟨(C18_create_stores_plan_with_id (World.creating 987) exampleResource
      { Plan := { exampleState with ID := TString.unknown } }
      { State := none, Diagnostics := [] } (by decide)).1 "987" rfl,
   (C18_create_stores_plan_with_id
      (World.answering 500 "Internal Server Error" (Except.error "unexpected end"))
      exampleResource
      { Plan := { exampleState with ID := TString.unknown } }
      { State := none, Diagnostics := [] } (by decide)).2
      "API returned status 500: Internal Server Error" rfl⟩

/-- C19. For every desired record model `m` there are a create payload and an
edit payload whose name, type, content, ttl, prio and notes are `m`'s fields
as strings, the same in both, such that, whatever domain and id the model
carries, `Create` and `Update`, handed a response without errors, hand that
create payload to `CreateDNSRecord` and that edit payload to `EditDNSRecord`: the payloads are fixed before the
domain and the id are chosen. -/
theorem C19_edit_payload_equals_create_payload (m : DNSRecordResourceModel) :
    ∃ (created : CreateDNSRecordRequest) (edited : EditDNSRecordRequest),
      (created.Name = m.Name.ValueString ∧ created.Type_ = m.Type_.ValueString ∧
        created.Content = m.Content.ValueString ∧ created.TTL = m.TTL.ValueString ∧
        created.Prio = m.Prio.ValueString ∧ created.Notes = m.Notes.ValueString) ∧
      (edited.Name = created.Name ∧ edited.Type_ = created.Type_ ∧
        edited.Content = created.Content ∧ edited.TTL = created.TTL ∧
        edited.Prio = created.Prio ∧ edited.Notes = created.Notes) ∧
      ∀ (domain id : TString) (w : World) (r : DNSRecordResource),
        (∀ resp : CreateResponse, resp.Diagnostics.HasError = false →
          DNSRecordResource.Create w r { Plan := { m with Domain := domain, ID := id } } resp =
            match r.client.CreateDNSRecord w domain.ValueString created with
            | Except.error err =>
              { State := resp.State,
                Diagnostics :=
                  resp.Diagnostics.AddError "Client Error"
                    ("Unable to create DNS record: " ++ err) }
            | Except.ok newID =>
              { State := some { m with Domain := domain, ID := types.StringValue newID },
                Diagnostics := resp.Diagnostics }) ∧
        (∀ resp : UpdateResponse, resp.Diagnostics.HasError = false →
          DNSRecordResource.Update w r { Plan := { m with Domain := domain, ID := id } } resp =
            match r.client.EditDNSRecord w domain.ValueString id.ValueString edited with
            | Except.error err =>
              { State := resp.State,
                Diagnostics :=
                  resp.Diagnostics.AddError "Client Error"
                    ("Unable to update DNS record: " ++ err) }
            | Except.ok _ =>
              { State := some { m with Domain := domain, ID := id },
                Diagnostics := resp.Diagnostics }) := by
  refine ⟨{ SecretAPIKey := "", APIKey := "",
            Name := m.Name.ValueString, Type_ := m.Type_.ValueString,
            Content := m.Content.ValueString, TTL := m.TTL.ValueString,
            Prio := m.Prio.ValueString, Notes := m.Notes.ValueString },
          { SecretAPIKey := "", APIKey := "",
            Name := m.Name.ValueString, Type_ := m.Type_.ValueString,
            Content := m.Content.ValueString, TTL := m.TTL.ValueString,
            Prio := m.Prio.ValueString, Notes := m.Notes.ValueString },
          ⟨rfl, rfl, rfl, rfl, rfl, rfl⟩, ⟨rfl, rfl, rfl, rfl, rfl, rfl⟩, ?_⟩
  intro domain id w r
  constructor
  · intro resp hclean
    unfold DNSRecordResource.Create
    simp only [hclean, Bool.false_eq_true, if_false]
    cases r.client.CreateDNSRecord w domain.ValueString
        { SecretAPIKey := "", APIKey := "",
          Name := m.Name.ValueString, Type_ := m.Type_.ValueString,
          Content := m.Content.ValueString, TTL := m.TTL.ValueString,
          Prio := m.Prio.ValueString, Notes := m.Notes.ValueString } with
    | error err => rfl
    | ok newID => simp [State.Set, Diagnostics.Append]
  · intro resp hclean
    unfold DNSRecordResource.Update
    simp only [hclean, Bool.false_eq_true, if_false]
    cases r.client.EditDNSRecord w domain.ValueString id.ValueString
        { SecretAPIKey := "", APIKey := "",
          Name := m.Name.ValueString, Type_ := m.Type_.ValueString,
          Content := m.Content.ValueString, TTL := m.TTL.ValueString,
          Prio := m.Prio.ValueString, Notes := m.Notes.ValueString } with
    | error err => rfl
    | ok u => simp [State.Set, Diagnostics.Append]

/-- C20. For every prior tracked state `s` and every record `rec` that
`GetDNSRecord` returns for it, `Read`, handed a response without errors,
writes a state whose domain and id are
those of `s` (whatever id `rec` carries), whose type, content, ttl, prio and
notes are those of `rec`, and whose name is the normalisation of `rec`'s name
against `s`'s domain; no diagnostic is added. -/
theorem C20_read_keeps_identity (w : World) (r : DNSRecordResource) (req : ReadRequest)
    (resp : ReadResponse) (record : DNSRecord)
    (hclean : resp.Diagnostics.HasError = false)
    (hget : r.client.GetDNSRecord w req.State.Domain.ValueString req.State.ID.ValueString
      = Except.ok record) :
    ∃ written : DNSRecordResourceModel,
      DNSRecordResource.Read w r req resp
        = { State := some written, Diagnostics := resp.Diagnostics } ∧
      written.Domain = req.State.Domain ∧
      written.ID = req.State.ID ∧
      written.Type_ = TString.value record.Type_ ∧
      written.Content = TString.value record.Content ∧
      written.TTL = TString.value record.TTL ∧
      written.Prio = TString.value record.Prio ∧
      written.Notes = TString.value record.Notes ∧
      written.Name = TString.value
        (DNSRecordResource.toRelative req.State.Domain.ValueString record.Name) :=
  ⟨_, Read_of_ok w r req resp record hclean hget, rfl, rfl, rfl, rfl, rfl, rfl, rfl, rfl⟩

/-- C20 at a concrete input: the tracked record `example.com/12345` is
answered with a record that carries the id `99999`; the state written keeps
the id `12345`. -/
theorem C20_read_keeps_identity_witness :
    ∃ written : DNSRecordResourceModel,
      DNSRecordResource.Read
          (World.answering 200 "status SUCCESS, one record"
            (Except.ok
              { Status := "SUCCESS", Message := "",
                Records := [{ ID := "99999", Name := "mail.example.com", Type_ := "MX",
                              Content := "mx.example.net", TTL := "3600", Prio := "10",
                              Notes := "relay" }] }))
          exampleResource { State := exampleState }
          { State := some exampleState, Diagnostics := [] }
        = { State := some written, Diagnostics := [] } ∧
      written.Domain = TString.value "example.com" ∧
      written.ID = TString.value "12345" ∧
      written.Type_ = TString.value "MX" ∧
      written.Content = TString.value "mx.example.net" ∧
      written.TTL = TString.value "3600" ∧
      written.Prio = TString.value "10" ∧
      written.Notes = TString.value "relay" ∧
      written.Name = TString.value "mail" :=
  C20_read_keeps_identity
    (World.answering 200 "status SUCCESS, one record"
      (Except.ok
        { Status := "SUCCESS", Message := "",
          Records := [{ ID := "99999", Name := "mail.example.com", Type_ := "MX",
                        Content := "mx.example.net", TTL := "3600", Prio := "10",
                        Notes := "relay" }] }))
    exampleResource { State := exampleState }
    { State := some exampleState, Diagnostics := [] }
    { ID := "99999", Name := "mail.example.com", Type_ := "MX",
      Content := "mx.example.net", TTL := "3600", Prio := "10", Notes := "relay" }
    (by decide) rfl

/-! ## Data source -/

theorem DSRead_of_ok (w : World) (d : DNSRecordDataSource) (req : DSReadRequest)
    (resp : DSReadResponse) (record : DNSRecord)
    (hclean : resp.Diagnostics.HasError = false)
    (hget : d.client.GetDNSRecord w req.Config.Domain.ValueString req.Config.ID.ValueString
      = Except.ok record) :
    DNSRecordDataSource.Read w d req resp
      = { State :=
            some { req.Config with
                   Name := types.StringValue
                     (DNSRecordDataSource.toRelative req.Config.Domain.ValueString record.Name)
                   Type_ := types.StringValue record.Type_
                   Content := types.StringValue record.Content
                   TTL := types.StringValue record.TTL
                   Prio := types.StringValue record.Prio
                   Notes := types.StringValue record.Notes },
          Diagnostics := resp.Diagnostics } := by
  unfold DNSRecordDataSource.Read
  simp [hclean, hget, Diagnostics.Append]

/-- C22. The name normalisation of `DNSRecordDataSource.Read` and the one of
`DNSRecordResource.Read` agree on every domain and every full name; and when
the two `Read`s, each handed a response without errors, retrieve the same
record for the same domain, they store the same name. -/
theorem C22_data_source_normalises_like_resource (domain name : String) :
    DNSRecordDataSource.toRelative domain name
      = DNSRecordResource.toRelative domain name ∧
    ∀ (w : World) (d : DNSRecordDataSource) (r : DNSRecordResource)
      (dreq : DSReadRequest) (dresp : DSReadResponse)
      (rreq : ReadRequest) (rresp : ReadResponse) (record : DNSRecord),
      dresp.Diagnostics.HasError = false →
      rresp.Diagnostics.HasError = false →
      dreq.Config.Domain.ValueString = domain →
      rreq.State.Domain.ValueString = domain →
      record.Name = name →
      d.client.GetDNSRecord w dreq.Config.Domain.ValueString dreq.Config.ID.ValueString
        = Except.ok record →
      r.client.GetDNSRecord w rreq.State.Domain.ValueString rreq.State.ID.ValueString
        = Except.ok record →
      (DNSRecordDataSource.Read w d dreq dresp).State.map DNSRecordDataSourceModel.Name
        = (DNSRecordResource.Read w r rreq rresp).State.map DNSRecordResourceModel.Name := by
  have hsame : ∀ dom n : String,
      DNSRecordDataSource.toRelative dom n = DNSRecordResource.toRelative dom n := by
    intro dom n
    unfold DNSRecordDataSource.toRelative DNSRecordResource.toRelative
    rfl
  refine ⟨hsame domain name, ?_⟩
  intro w d r dreq dresp rreq rresp record hdclean hrclean hd hr _ hdget hrget
  rw [DSRead_of_ok w d dreq dresp record hdclean hdget,
    Read_of_ok w r rreq rresp record hrclean hrget,
    hd, hr, hsame]
  rfl

/-- C22 at a concrete input: for `example.com/12345`, answered with a record
named `www.example.com`, the data source and the resource store the same
name. -/
theorem C22_data_source_normalises_like_resource_witness :
    (DNSRecordDataSource.Read
        (World.answering 200 "status SUCCESS, one record"
          (Except.ok
            { Status := "SUCCESS", Message := "",
              Records := [{ ID := "12345", Name := "www.example.com", Type_ := "A",
                            Content := "192.0.2.1", TTL := "600", Prio := "0",
                            Notes := "" }] }))
        exampleDataSource { Config := exampleDSConfig }
        { State := none, Diagnostics := [] }).State.map DNSRecordDataSourceModel.Name
      = (DNSRecordResource.Read
          (World.answering 200 "status SUCCESS, one record"
            (Except.ok
              { Status := "SUCCESS", Message := "",
                Records := [{ ID := "12345", Name := "www.example.com", Type_ := "A",
                              Content := "192.0.2.1", TTL := "600", Prio := "0",
                              Notes := "" }] }))
          exampleResource { State := exampleState }
          { State := some exampleState, Diagnostics := [] }).State.map
            DNSRecordResourceModel.Name :=
  (C22_data_source_normalises_like_resource "example.com" "www.example.com").2
    (World.answering 200 "status SUCCESS, one record"
      (Except.ok
        { Status := "SUCCESS", Message := "",
          Records := [{ ID := "12345", Name := "www.example.com", Type_ := "A",
                        Content := "192.0.2.1", TTL := "600", Prio := "0",
                        Notes := "" }] }))
    exampleDataSource exampleResource { Config := exampleDSConfig }
    { State := none, Diagnostics := [] } { State := exampleState }
    { State := some exampleState, Diagnostics := [] }
    { ID := "12345", Name := "www.example.com", Type_ := "A", Content := "192.0.2.1",
      TTL := "600", Prio := "0", Notes := "" }
    (by decide) (by decide) rfl rfl rfl rfl rfl

/-- C24. For every failure `err` that `GetDNSRecord` returns,
`DNSRecordDataSource.Read`, handed a response without errors, adds the error `Client Error` carrying `err` and
leaves the state as it was handed in; in particular, for a `SUCCESS` response
with an empty records list it reports `DNS record not found`, where the
resource's `Read` removes the record and reports nothing. -/
theorem C24_data_source_reports_every_failure (w : World) (d : DNSRecordDataSource)
    (req : DSReadRequest) (resp : DSReadResponse)
    (hclean : resp.Diagnostics.HasError = false) :
    (∀ err : String,
      d.client.GetDNSRecord w req.Config.Domain.ValueString req.Config.ID.ValueString
        = Except.error err →
      DNSRecordDataSource.Read w d req resp
        = { State := resp.State,
            Diagnostics :=
              resp.Diagnostics ++
                [{ Severity := Severity.error, Summary := "Client Error",
                   Detail := "Unable to read DNS record: " ++ err }] }) ∧
    (∀ (body : String) (res : RetrieveDNSRecordsResponse),
      d.client.retrieveBody w req.Config.Domain.ValueString req.Config.ID.ValueString
        = Except.ok body →
      w.UnmarshalRetrieve body = Except.ok res →
      res.Status = "SUCCESS" → res.Records = [] →
      DNSRecordDataSource.Read w d req resp
        = { State := resp.State,
            Diagnostics :=
              resp.Diagnostics ++
                [{ Severity := Severity.error, Summary := "Client Error",
                   Detail := "Unable to read DNS record: DNS record not found" }] }) := by
  have hfail : ∀ err : String,
      d.client.GetDNSRecord w req.Config.Domain.ValueString req.Config.ID.ValueString
        = Except.error err →
      DNSRecordDataSource.Read w d req resp
        = { State := resp.State,
            Diagnostics :=
              resp.Diagnostics ++
                [{ Severity := Severity.error, Summary := "Client Error",
                   Detail := "Unable to read DNS record: " ++ err }] } := by
    intro err hget
    unfold DNSRecordDataSource.Read
    simp [hclean, hget, Diagnostics.AddError]
  refine ⟨hfail, ?_⟩
  intro body res hbody hdec hstatus hrecs
  have hget : d.client.GetDNSRecord w req.Config.Domain.ValueString
      req.Config.ID.ValueString = Except.error "DNS record not found" := by
    rw [GetDNSRecord_of_decoded w d.client _ _ body res hbody hdec,
      if_neg (not_not.2 hstatus), hrecs]
  exact hfail _ hget

/-- C24 at concrete inputs: the data source for `example.com/12345` reports the
not-found failure of an empty records list and the failure of a 404 answer. -/
theorem C24_data_source_reports_every_failure_witness :
    DNSRecordDataSource.Read
        (World.answering 200 "status SUCCESS, no records"
          (Except.ok { Status := "SUCCESS", Message := "", Records := [] }))
        exampleDataSource { Config := exampleDSConfig }
        { State := none, Diagnostics := [] }
      = { State := none,
          Diagnostics :=
            [{ Severity := Severity.error, Summary := "Client Error",
               Detail := "Unable to read DNS record: DNS record not found" }] } ∧
    DNSRecordDataSource.Read
        (World.answering 404 "404 page not found" (Except.error "unexpected end"))
        exampleDataSource { Config := exampleDSConfig }
        { State := none, Diagnostics := [] }
      = { State := none,
          Diagnostics :=
            [{ Severity := Severity.error, Summary := "Client Error",
               Detail := "Unable to read DNS record: API returned status 404: 404 page not found" }] } :=
  ⟨(C24_data_source_reports_every_failure
      (World.answering 200 "status SUCCESS, no records"
        (Except.ok { Status := "SUCCESS", Message := "", Records := [] }))
      exampleDataSource { Config := exampleDSConfig }
      { State := none, Diagnostics := [] } (by decide)).2
      "status SUCCESS, no records" { Status := "SUCCESS", Message := "", Records := [] }
      rfl rfl rfl rfl,
   (C24_data_source_reports_every_failure
      (World.answering 404 "404 page not found" (Except.error "unexpected end"))
      exampleDataSource { Config := exampleDSConfig }
      { State := none, Diagnostics := [] } (by decide)).1
      "API returned status 404: 404 page not found" rfl⟩

/-! ## JSON body of the create and edit requests -/

theorem json.mem_keys_Members (fields : List json.Field) (key : String) :
    key ∈ (json.Members fields).map Prod.fst ↔
      ∃ f ∈ fields, f.Key = key ∧ ¬ (f.OmitEmpty = true ∧ f.Value = "") := by
  unfold json.Members
  simp only [List.map_map, List.mem_map, List.mem_filter, Function.comp_apply,
    Bool.not_eq_true', Bool.and_eq_false_iff, beq_eq_false_iff_ne, ne_eq]
  constructor
  · rintro ⟨f, ⟨hf, hkeep⟩, hkey⟩
    refine ⟨f, hf, hkey, ?_⟩
    rintro ⟨ho, hv⟩
    rcases hkeep with h | h
    · rw [ho] at h
      cases h
    · exact h hv
  · rintro ⟨f, hf, hkey, hkeep⟩
    refine ⟨f, ⟨hf, ?_⟩, hkey⟩
    by_cases ho : f.OmitEmpty = true
    · exact Or.inr (fun hv => hkeep ⟨ho, hv⟩)
    · exact Or.inl (by simpa using ho)

theorem create_keys (p : CreateDNSRecordRequest) :
    "secretapikey" ∈ (Payload.create p).jsonKeys ∧
    "apikey" ∈ (Payload.create p).jsonKeys ∧
    "type" ∈ (Payload.create p).jsonKeys ∧
    "content" ∈ (Payload.create p).jsonKeys ∧
    ("name" ∈ (Payload.create p).jsonKeys ↔ p.Name ≠ "") ∧
    ("ttl" ∈ (Payload.create p).jsonKeys ↔ p.TTL ≠ "") ∧
    ("prio" ∈ (Payload.create p).jsonKeys ↔ p.Prio ≠ "") ∧
    ("notes" ∈ (Payload.create p).jsonKeys ↔ p.Notes ≠ "") := by
  simp only [Payload.jsonKeys, Payload.jsonObject, json.mem_keys_Members]
  simp [CreateDNSRecordRequest.jsonFields, authRequest.jsonFields]

theorem edit_keys (p : EditDNSRecordRequest) :
    "secretapikey" ∈ (Payload.edit p).jsonKeys ∧
    "apikey" ∈ (Payload.edit p).jsonKeys ∧
    "type" ∈ (Payload.edit p).jsonKeys ∧
    "content" ∈ (Payload.edit p).jsonKeys ∧
    ("name" ∈ (Payload.edit p).jsonKeys ↔ p.Name ≠ "") ∧
    ("ttl" ∈ (Payload.edit p).jsonKeys ↔ p.TTL ≠ "") ∧
    ("prio" ∈ (Payload.edit p).jsonKeys ↔ p.Prio ≠ "") ∧
    ("notes" ∈ (Payload.edit p).jsonKeys ↔ p.Notes ≠ "") := by
  simp only [Payload.jsonKeys, Payload.jsonObject, json.mem_keys_Members]
  simp [EditDNSRecordRequest.jsonFields, authRequest.jsonFields]

theorem EditDNSRecord_echo (c : Client) (domain recordID : String)
    (q : EditDNSRecordRequest) :
    c.EditDNSRecord World.echoing domain recordID q
      = Except.error ("failed to execute request: " ++
          renderMembers
            (Payload.edit { q with SecretAPIKey := c.secretAPIKey, APIKey := c.apiKey }).jsonObject) :=
  rfl

theorem CreateDNSRecord_echo (c : Client) (domain : String) (p : CreateDNSRecordRequest) :
    c.CreateDNSRecord World.echoing domain p
      = Except.error ("failed to execute request: " ++
          renderMembers
            (Payload.create { p with SecretAPIKey := c.secretAPIKey, APIKey := c.apiKey }).jsonObject) :=
  rfl

set_option maxRecDepth 8192 in
theorem Update_body_values :
    DNSRecordResource.Update World.echoing exampleResource
        { Plan := { exampleState with Name := TString.value "", Notes := TString.value "" } }
        { State := some exampleState, Diagnostics := [] }
      = { State := some exampleState,
          Diagnostics :=
            [{ Severity := Severity.error, Summary := "Client Error",
               Detail := "Unable to update DNS record: failed to execute request: \x7b\"secretapikey\":\"sk1_secret\",\"apikey\":\"pk1_key\",\"type\":\"A\",\"content\":\"192.0.2.1\",\"ttl\":\"600\",\"prio\":\"0\"\x7d" }] } := by
  decide

/-- C23. In the JSON object written for a create request `p` and for an edit
request `q`, the keys `secretapikey`, `apikey`, `type` and `content` are
always present, and each of the keys `name`, `ttl`, `prio` and `notes` is
present exactly when the field's value is not the empty string; so an edit
whose notes (or name) is the empty string carries no `notes` (or `name`)
key. -/
theorem C23_json_keys_follow_omitempty (p : CreateDNSRecordRequest)
    (q : EditDNSRecordRequest) :
    ("secretapikey" ∈ (Payload.create p).jsonKeys ∧
      "apikey" ∈ (Payload.create p).jsonKeys ∧
      "type" ∈ (Payload.create p).jsonKeys ∧
      "content" ∈ (Payload.create p).jsonKeys ∧
      ("name" ∈ (Payload.create p).jsonKeys ↔ p.Name ≠ "") ∧
      ("ttl" ∈ (Payload.create p).jsonKeys ↔ p.TTL ≠ "") ∧
      ("prio" ∈ (Payload.create p).jsonKeys ↔ p.Prio ≠ "") ∧
      ("notes" ∈ (Payload.create p).jsonKeys ↔ p.Notes ≠ "")) ∧
    ("secretapikey" ∈ (Payload.edit q).jsonKeys ∧
      "apikey" ∈ (Payload.edit q).jsonKeys ∧
      "type" ∈ (Payload.edit q).jsonKeys ∧
      "content" ∈ (Payload.edit q).jsonKeys ∧
      ("name" ∈ (Payload.edit q).jsonKeys ↔ q.Name ≠ "") ∧
      ("ttl" ∈ (Payload.edit q).jsonKeys ↔ q.TTL ≠ "") ∧
      ("prio" ∈ (Payload.edit q).jsonKeys ↔ q.Prio ≠ "") ∧
      ("notes" ∈ (Payload.edit q).jsonKeys ↔ q.Notes ≠ "")) ∧
    (q.Notes = "" → "notes" ∉ (Payload.edit q).jsonKeys) ∧
    (q.Name = "" → "name" ∉ (Payload.edit q).jsonKeys) := by
  have hc := create_keys p
  have he := edit_keys q
  refine ⟨hc, he, ?_, ?_⟩
  · intro hempty hmem
    exact (he.2.2.2.2.2.2.2.1 hmem) hempty
  · intro hempty hmem
    exact (he.2.2.2.2.1.1 hmem) hempty

/-! ## Provider configuration -/

theorem HasError_AddError (ds : Diagnostics) (summary detail : String) :
    Diagnostics.HasError (Diagnostics.AddError ds summary detail) = true := by
  simp [Diagnostics.HasError, Diagnostics.AddError]

theorem credential_eq (configured : TString) (env : String) :
    (if (!configured.IsNull) = true then configured.ValueString else env)
      = Spec.credential configured env := by
  cases configured <;> rfl

theorem not_mem_of_HasError_false (ds : Diagnostics) (h : Diagnostics.HasError ds = false)
    (d : Diagnostic) (hd : d ∈ ds) : d.Severity ≠ Severity.error := by
  intro hsev
  have : Diagnostics.HasError ds = true := by
    unfold Diagnostics.HasError
    rw [List.any_eq_true]
    exact ⟨d, hd, by simp [hsev]⟩
  rw [h] at this
  cases this

/-- C21. Let the API key be the configured value when one is set and the value
of `PORKBUN_API_KEY` otherwise, and the secret key likewise with
`PORKBUN_SECRET_API_KEY`. `Configure`, handed a response without errors,
reports the error `Missing API Key` exactly when that API key is empty and the
error `Missing Secret API Key` exactly when that secret key is empty (both
when both are). When either is empty it calls `Ping` on no client and leaves
`DataSourceData` and `ResourceData` as they were; otherwise it calls `Ping`
once, on the client made from these two values, and hands that client on when
the ping succeeds. -/
theorem C21_configure_credentials (w : World) (Getenv : String → String)
    (p : PorkbunProvider) (req : ConfigureRequest) (resp : ConfigureResponse)
    (hclean : resp.Diagnostics.HasError = false) :
    ((PorkbunProvider.Configure w Getenv p req resp).2 =
      if Spec.credential req.Config.APIKey (Getenv "PORKBUN_API_KEY") = "" ∨
          Spec.credential req.Config.SecretAPIKey (Getenv "PORKBUN_SECRET_API_KEY") = ""
      then []
      else [NewClient (Spec.credential req.Config.APIKey (Getenv "PORKBUN_API_KEY"))
              (Spec.credential req.Config.SecretAPIKey (Getenv "PORKBUN_SECRET_API_KEY"))]) ∧
    (Spec.credential req.Config.APIKey (Getenv "PORKBUN_API_KEY") = "" ∨
        Spec.credential req.Config.SecretAPIKey (Getenv "PORKBUN_SECRET_API_KEY") = "" →
      (PorkbunProvider.Configure w Getenv p req resp).1.DataSourceData = resp.DataSourceData ∧
      (PorkbunProvider.Configure w Getenv p req resp).1.ResourceData = resp.ResourceData) ∧
    ((∃ d ∈ (PorkbunProvider.Configure w Getenv p req resp).1.Diagnostics,
        d.Severity = Severity.error ∧ d.Summary = "Missing API Key")
      ↔ Spec.credential req.Config.APIKey (Getenv "PORKBUN_API_KEY") = "") ∧
    ((∃ d ∈ (PorkbunProvider.Configure w Getenv p req resp).1.Diagnostics,
        d.Severity = Severity.error ∧ d.Summary = "Missing Secret API Key")
      ↔ Spec.credential req.Config.SecretAPIKey (Getenv "PORKBUN_SECRET_API_KEY") = "") ∧
    (Spec.credential req.Config.APIKey (Getenv "PORKBUN_API_KEY") ≠ "" →
      Spec.credential req.Config.SecretAPIKey (Getenv "PORKBUN_SECRET_API_KEY") ≠ "" →
      (NewClient (Spec.credential req.Config.APIKey (Getenv "PORKBUN_API_KEY"))
          (Spec.credential req.Config.SecretAPIKey (Getenv "PORKBUN_SECRET_API_KEY"))).Ping w
        = Except.ok () →
      (PorkbunProvider.Configure w Getenv p req resp).1
        = { resp with
            DataSourceData :=
              some (NewClient (Spec.credential req.Config.APIKey (Getenv "PORKBUN_API_KEY"))
                (Spec.credential req.Config.SecretAPIKey (Getenv "PORKBUN_SECRET_API_KEY")))
            ResourceData :=
              some (NewClient (Spec.credential req.Config.APIKey (Getenv "PORKBUN_API_KEY"))
                (Spec.credential req.Config.SecretAPIKey
                  (Getenv "PORKBUN_SECRET_API_KEY"))) }) := by
  have hold : ∀ d ∈ resp.Diagnostics, d.Severity ≠ Severity.error :=
    not_mem_of_HasError_false resp.Diagnostics hclean
  unfold PorkbunProvider.Configure
  simp only [hclean, credential_eq, Bool.false_eq_true, if_false]
  generalize Spec.credential req.Config.APIKey (Getenv "PORKBUN_API_KEY") = A
  generalize Spec.credential req.Config.SecretAPIKey (Getenv "PORKBUN_SECRET_API_KEY") = S
  by_cases hA : A = "" <;> by_cases hS : S = ""
  · simp only [hA, hS, if_true, HasError_AddError]
    simp only [Diagnostics.AddError, or_self, if_true, true_and, forall_true_left,
      List.append_assoc, List.singleton_append, List.mem_append, List.mem_cons,
      List.mem_singleton, List.not_mem_nil, or_false, iff_true, and_self, true_implies]
    exact ⟨⟨_, Or.inr (Or.inl rfl), rfl, rfl⟩, ⟨_, Or.inr (Or.inr rfl), rfl, rfl⟩,
      fun h => absurd rfl h⟩
  · simp only [hA, hS, if_true, if_false, HasError_AddError]
    simp only [Diagnostics.AddError, or_false, if_true, true_and, forall_true_left,
      List.mem_append, List.mem_singleton, iff_true, iff_false, and_self, true_implies,
      not_exists, not_and]
    refine ⟨⟨_, Or.inr rfl, rfl, rfl⟩, ?_, fun h => absurd rfl h⟩
    rintro x (hx | rfl) hsev
    · exact absurd hsev (hold x hx)
    · decide
  · simp only [hA, hS, if_true, if_false, HasError_AddError]
    simp only [Diagnostics.AddError, or_true, if_true, true_and, forall_true_left,
      List.mem_append, List.mem_singleton, iff_true, iff_false, and_self, true_implies,
      not_exists, not_and]
    refine ⟨?_, ⟨_, Or.inr rfl, rfl, rfl⟩, fun _ h => absurd rfl h⟩
    rintro x (hx | rfl) hsev
    · exact absurd hsev (hold x hx)
    · decide
  · simp only [hA, hS, if_false, hclean, Bool.false_eq_true, or_self]
    cases hping : Client.Ping w (NewClient A S) with
    | error err =>
      simp only [Diagnostics.AddError, false_implies, true_and, List.mem_append,
        List.mem_singleton, iff_false, not_exists, not_and, not_false_eq_true,
        true_implies, reduceCtorEq, false_implies, and_true]
      refine ⟨?_, ?_, fun _ _ => trivial⟩
      · rintro x (hx | rfl) hsev
        · exact absurd hsev (hold x hx)
        · exact (by decide : ("Unable to Create Porkbun API Client" : String)
            ≠ "Missing API Key")
      · rintro x (hx | rfl) hsev
        · exact absurd hsev (hold x hx)
        · exact (by decide : ("Unable to Create Porkbun API Client" : String)
            ≠ "Missing Secret API Key")
    | ok u =>
      simp only [false_implies, true_and, iff_false, not_exists, not_and,
        not_false_eq_true, true_implies, and_true]
      refine ⟨?_, ?_, fun _ _ => trivial⟩
      · intro x hx hsev
        exact absurd hsev (hold x hx)
      · intro x hx hsev
        exact absurd hsev (hold x hx)

/-- C21 at concrete inputs. With nothing configured and only
`PORKBUN_API_KEY` set in the environment, the secret key is missing: no ping,
no client. With both values configured, the configured API key is used, not
the environment's. -/
theorem C21_configure_credentials_witness :
    (PorkbunProvider.Configure
        (World.answering 200 "status SUCCESS"
          (Except.ok { Status := "SUCCESS", Message := "", Records := [] }))
        exampleGetenv { version := "test" }
        { Config := { APIKey := TString.null, SecretAPIKey := TString.null } }
        { Diagnostics := [], DataSourceData := none, ResourceData := none }).2 = [] ∧
    ((PorkbunProvider.Configure
        (World.answering 200 "status SUCCESS"
          (Except.ok { Status := "SUCCESS", Message := "", Records := [] }))
        exampleGetenv { version := "test" }
        { Config := { APIKey := TString.null, SecretAPIKey := TString.null } }
        { Diagnostics := [], DataSourceData := none, ResourceData := none }).1.DataSourceData
        = none ∧
      (PorkbunProvider.Configure
        (World.answering 200 "status SUCCESS"
          (Except.ok { Status := "SUCCESS", Message := "", Records := [] }))
        exampleGetenv { version := "test" }
        { Config := { APIKey := TString.null, SecretAPIKey := TString.null } }
        { Diagnostics := [], DataSourceData := none, ResourceData := none }).1.ResourceData
        = none) ∧
    (PorkbunProvider.Configure
        (World.answering 200 "status SUCCESS"
          (Except.ok { Status := "SUCCESS", Message := "", Records := [] }))
        exampleGetenv { version := "test" }
        { Config := { APIKey := TString.value "pk1_cfg",
                      SecretAPIKey := TString.value "sk1_cfg" } }
        { Diagnostics := [], DataSourceData := none, ResourceData := none }).2
      = [NewClient "pk1_cfg" "sk1_cfg"] :=
  ⟨(C21_configure_credentials
      (World.answering 200 "status SUCCESS"
        (Except.ok { Status := "SUCCESS", Message := "", Records := [] }))
      exampleGetenv { version := "test" }
      { Config := { APIKey := TString.null, SecretAPIKey := TString.null } }
      { Diagnostics := [], DataSourceData := none, ResourceData := none } (by decide)).1,
   (C21_configure_credentials
      (World.answering 200 "status SUCCESS"
        (Except.ok { Status := "SUCCESS", Message := "", Records := [] }))
      exampleGetenv { version := "test" }
      { Config := { APIKey := TString.null, SecretAPIKey := TString.null } }
      { Diagnostics := [], DataSourceData := none, ResourceData := none }
      (by decide)).2.1 (Or.inr (by decide)),
   (C21_configure_credentials
      (World.answering 200 "status SUCCESS"
        (Except.ok { Status := "SUCCESS", Message := "", Records := [] }))
      exampleGetenv { version := "test" }
      { Config := { APIKey := TString.value "pk1_cfg",
                    SecretAPIKey := TString.value "sk1_cfg" } }
      { Diagnostics := [], DataSourceData := none, ResourceData := none } (by decide)).1⟩

end Porkbun
